import Mathlib

/-!
Verification development for the frappe_mcp_server transport and dispatch
layer (src/streamable-http-server.ts, src/middleware.ts, src/prompts.ts,
src/schema-generator.ts).  The TypeScript sources are shallowly embedded:
JSON values become an inductive type, the Express request handler for
POST / becomes a pure function from a structured request (plus an
environment supplying the external collaborators: tool handlers, the
resource provider, the Frappe helper functions used by prompt generators)
to a list of primitive response effects, and the middleware state
(rate-limit store, metrics counters, session map) becomes explicit state
passed through step functions.
-/

/-- A JSON value.  Numbers are modelled as integers: every numeric literal
that the dispatch layer itself produces or compares is integral, and no
claim depends on non-integral numerics. -/
inductive Json where
  | null : Json
  | bool (b : Bool) : Json
  | num (n : Int) : Json
  | str (s : String) : Json
  | arr (elems : List Json) : Json
  | obj (fields : List (String × Json)) : Json

/-- Field lookup on a JSON object (first binding wins; the embedded object
literals carry no duplicate keys).  Non-objects have no fields. -/
def jGet (j : Json) (key : String) : Option Json :=
  match j with
  | .obj fields => (fields.find? (fun f => f.1 = key)).map (fun f => f.2)
  | _ => none

/-- Build a JSON object, dropping fields whose value is `none`.  This models
the fact that a JavaScript object field holding `undefined` is omitted by
JSON serialization (`res.json` / `JSON.stringify`). -/
def jObjOpt (fields : List (String × Option Json)) : Json :=
  .obj (fields.filterMap (fun f => f.2.map (fun v => (f.1, v))))

/-- JavaScript truthiness of a JSON value: `null`, `false`, `0` and the
empty string are falsy; objects and arrays are always truthy. -/
def jsTruthy (j : Json) : Bool :=
  match j with
  | .null => false
  | .bool b => b
  | .num n => n != 0
  | .str s => s ≠ ""
  | .arr _ => true
  | .obj _ => true

/-- Truthiness of a possibly-absent value (an absent field reads as
`undefined`, which is falsy). -/
def jsTruthyOpt (j : Option Json) : Bool :=
  match j with
  | none => false
  | some v => jsTruthy v

/-- True exactly for the JSON null value.  Destructuring a null value
throws a TypeError in JavaScript, while destructuring any other value
merely reads absent properties as undefined. -/
def isNullJson : Json → Bool
  | .null => true
  | _ => false

/-- Array.prototype.toString, as invoked by the ToString coercion on an
array: elements coerce recursively and join with commas, a null element
rendering empty. -/
def jsArrayKey (xs : List Json) : String :=
  String.intercalate "," (xs.attach.map (fun x =>
    match x with
    | ⟨.null, _⟩ => ""
    | ⟨.bool b, _⟩ => if b then "true" else "false"
    | ⟨.num n, _⟩ => toString n
    | ⟨.str s, _⟩ => s
    | ⟨.arr ys, _hy⟩ => jsArrayKey ys
    | ⟨.obj _, _⟩ => "[object Object]"))
termination_by sizeOf xs
decreasing_by
  have hlt := List.sizeOf_lt_of_mem _hy
  simp at hlt
  simp
  omega

/-- The ToString coercion of a JSON value, as JavaScript applies it both
to template-literal interpolations and to computed property keys (an
absent value renders as the string undefined). -/
def jsTemplate (j : Option Json) : String :=
  match j with
  | none => "undefined"
  | some .null => "null"
  | some (.bool b) => if b then "true" else "false"
  | some (.num n) => toString n
  | some (.str s) => s
  | some (.arr xs) => jsArrayKey xs
  | some (.obj _) => "[object Object]"

/-- The value of the JavaScript expression id or null used by the invalid
envelope branch of the POST handler: a falsy id collapses to null. -/
def jsOrNull (j : Option Json) : Json :=
  match j with
  | none => .null
  | some v => if jsTruthy v then v else .null

/-- Prefix test on character lists (kernel-computable). -/
def strStartsWith (s p : String) : Bool :=
  p.data.isPrefixOf s.data

/-- Substring test, modelling JavaScript String.prototype.includes. -/
def charsIncludes (sub : List Char) : List Char → Bool
  | [] => sub.isEmpty
  | c :: rest => sub.isPrefixOf (c :: rest) || charsIncludes sub rest

/-- Substring test on strings. -/
def strIncludes (s sub : String) : Bool :=
  charsIncludes sub.data s.data

/-!
## The Zod schema AST (src/schema-generator.ts, tool schemas)

The registry in streamable-http-server.ts builds its input validators from
a fixed subset of Zod: z.object, z.string, z.number, z.boolean, z.array,
z.enum, z.record(z.any()) and .optional().  The union branch of the
source generator handles z.union as well; no registry schema uses a
union, so the embedding carries a binary union constructor purely so that
the generator can be translated in full.  No registry schema attaches a
describe() annotation, so the description copying of the source generator
is vacuous here and is omitted from the embedding.
-/

/-! The Zod schema subset used by the tool registry.  The shape of an
object schema is its own inductive list so that the schema functions can
recurse structurally (and hence compute by kernel reduction). -/
mutual
inductive ZodType where
  | object (shape : ZodShape) : ZodType
  | string : ZodType
  | number : ZodType
  | boolean : ZodType
  | array (elem : ZodType) : ZodType
  | enumOf (options : List String) : ZodType
  | recordAny : ZodType
  | optional (inner : ZodType) : ZodType
  | union (left right : ZodType) : ZodType
  | any : ZodType
inductive ZodShape where
  | nil : ZodShape
  | cons (key : String) (type : ZodType) (rest : ZodShape) : ZodShape
end

/-- Build a shape from a key-schema list (notation for registry entries). -/
def zshape : List (String × ZodType) → ZodShape
  | [] => .nil
  | (k, t) :: rest => .cons k t (zshape rest)

/-- The shape as a key-schema list (used to state properties of shapes). -/
def ZodShape.toList : ZodShape → List (String × ZodType)
  | .nil => []
  | .cons k t rest => (k, t) :: rest.toList

/-- Zod isOptional(): true exactly for .optional() wrappers in the subset
the registry uses. -/
def ZodType.isOptional : ZodType → Bool
  | .optional _ => true
  | _ => false

/-- The required-key collection of the ZodObject branch: each key whose
field is not optional is pushed, in shape order. -/
def zodShapeRequired : ZodShape → List String
  | .nil => []
  | .cons k t rest =>
      if ¬ t.isOptional then k :: zodShapeRequired rest else zodShapeRequired rest

/-! zodToJsonSchema of src/schema-generator.ts: converts a Zod validator to
a published JSON-Schema document.  On objects it lists as required exactly
the keys whose field is not optional and omits the required array when
that list is empty (the source assigns undefined there, which JSON
serialization drops); it always sets additionalProperties to false.  An
optional field contributes the schema of its unwrapped inner type.  The
z.record(z.any()) branch reproduces the source behaviour of feeding the
value type (z.any) through the generator, which lands in the fallback
case, whose result is inlined. -/
mutual
/-- See the block comment above. -/
def zodToJsonSchema : ZodType → Json
  | .object shape =>
      Json.obj ([("type", Json.str "object"),
                 ("properties", Json.obj (zodShapeProps shape))] ++
        (if (zodShapeRequired shape).isEmpty then []
         else [("required", Json.arr ((zodShapeRequired shape).map Json.str))]) ++
        [("additionalProperties", Json.bool false),
         ("$schema", Json.str "http://json-schema.org/draft-07/schema#")])
  | .string => Json.obj [("type", Json.str "string")]
  | .number => Json.obj [("type", Json.str "number")]
  | .boolean => Json.obj [("type", Json.str "boolean")]
  | .array elem => Json.obj [("type", Json.str "array"), ("items", zodToJsonSchema elem)]
  | .enumOf options =>
      Json.obj [("type", Json.str "string"), ("enum", Json.arr (options.map Json.str))]
  | .recordAny =>
      Json.obj [("type", Json.str "object"), ("properties", Json.obj []),
                ("additionalProperties",
                  Json.obj [("type", Json.str "object"), ("properties", Json.obj []),
                            ("additionalProperties", Json.bool true)])]
  | .optional inner => zodToJsonSchema inner
  | .union left right =>
      Json.obj [("anyOf", Json.arr [zodToJsonSchema left, zodToJsonSchema right])]
  | .any =>
      Json.obj [("type", Json.str "object"), ("properties", Json.obj []),
                ("additionalProperties", Json.bool true)]
termination_by structural t => t
def zodShapeProps : ZodShape → List (String × Json)
  | .nil => []
  | .cons k t rest => (k, zodToJsonSchema t) :: zodShapeProps rest
termination_by structural s => s
end

/-- One structured validation violation, modelling a ZodIssue: the path to
the offending location and a message. -/
structure ZodIssue where
  path : List String
  message : String

/-! The model of schema.parse: validate a JSON value against a Zod
validator, returning the parsed value (with unknown object keys stripped,
as z.object does by default) or the full list of violations.  Issues from
object fields and array elements are aggregated, with the field key or
element index prefixed to the path, as Zod does. -/
mutual
/-- See the block comment above. -/
def zodParse : ZodType → Json → Except (List ZodIssue) Json
  | .object shape, .obj fields =>
      let shapeResult := zodParseShape shape fields
      if shapeResult.1.isEmpty then .ok (.obj shapeResult.2)
      else .error shapeResult.1
  | .object _, _ => .error [ZodIssue.mk [] "Expected object"]
  | .string, .str s => .ok (.str s)
  | .string, _ => .error [ZodIssue.mk [] "Expected string"]
  | .number, .num n => .ok (.num n)
  | .number, _ => .error [ZodIssue.mk [] "Expected number"]
  | .boolean, .bool b => .ok (.bool b)
  | .boolean, _ => .error [ZodIssue.mk [] "Expected boolean"]
  | .array elem, .arr xs =>
      let results := xs.enum.map (fun (ix : Nat × Json) =>
        match zodParse elem ix.2 with
        | .ok pv => Sum.inr pv
        | .error issues =>
            Sum.inl (issues.map (fun (i : ZodIssue) =>
              ZodIssue.mk (toString ix.1 :: i.path) i.message)))
      let issues := results.foldr
        (fun r acc => match r with | Sum.inl is => is ++ acc | Sum.inr _ => acc) []
      if issues.isEmpty then
        .ok (.arr (results.foldr
          (fun r acc => match r with | Sum.inr v => v :: acc | _ => acc) []))
      else .error issues
  | .array _, _ => .error [ZodIssue.mk [] "Expected array"]
  | .enumOf options, .str s =>
      if options.contains s then .ok (.str s)
      else .error [ZodIssue.mk [] "Invalid enum value"]
  | .enumOf _, _ => .error [ZodIssue.mk [] "Expected string"]
  | .recordAny, .obj fields => .ok (.obj fields)
  | .recordAny, _ => .error [ZodIssue.mk [] "Expected object"]
  | .optional inner, v => zodParse inner v
  | .union left right, v =>
      match zodParse left v with
      | .ok pv => .ok pv
      | .error _ =>
          match zodParse right v with
          | .ok pv => .ok pv
          | .error issues => .error issues
  | .any, v => .ok v
termination_by structural t _ => t
def zodParseShape : ZodShape → List (String × Json) →
    List ZodIssue × List (String × Json)
  | .nil, _ => ([], [])
  | .cons k t rest, fields =>
      let restResult := zodParseShape rest fields
      match (fields.find? (fun f => f.1 = k)).map (fun f => f.2) with
      | none =>
          if t.isOptional then restResult
          else (ZodIssue.mk [k] "Required" :: restResult.1, restResult.2)
      | some v =>
          match zodParse t v with
          | .ok pv => (restResult.1, (k, pv) :: restResult.2)
          | .error issues =>
              (issues.map (fun i => ZodIssue.mk (k :: i.path) i.message) ++ restResult.1,
               restResult.2)
termination_by structural s _ => s
end

/-- JSON encoding of a violation list, as error.errors serializes. -/
def issuesJson (issues : List ZodIssue) : Json :=
  .arr (issues.map (fun i =>
    .obj [("path", .arr (i.path.map Json.str)), ("message", .str i.message)]))

/-- Stands for ZodError#message (a textual rendering of the issue list);
no claim depends on its exact text, only on which branch produces it. -/
def zodErrorMessage (issues : List ZodIssue) : String :=
  String.intercalate "; " (issues.map (fun i =>
    String.intercalate "." i.path ++ ": " ++ i.message))

/-!
## The tool registry (streamable-http-server.ts, const tools)

Each registry entry carries a description and an input validator.  The
handler bodies call external collaborators (the Frappe API); the dispatch
layer only observes their success or failure, so handler outcomes are
supplied by the environment (Env.toolOutcome below), keyed by tool name
and validated arguments, exactly the data the source hands to a handler.
-/

/-- A registry entry projected to the data the dispatch layer reads. -/
structure ToolDef where
  description : String
  schema : ZodType

/-- The static tool registry, in source order. -/
def tools : List (String × ToolDef) :=
  [ ("ping",
     { description := "A simple tool to check if the server is responding."
       schema := .object (zshape []) }),
    ("find_doctypes",
     { description := "Find DocTypes in the system matching a search term"
       schema := .object (zshape (
         [("search_term", .optional .string), ("module", .optional .string),
          ("is_table", .optional .boolean), ("is_single", .optional .boolean),
          ("is_custom", .optional .boolean), ("limit", .optional .number)])) }),
    ("get_module_list",
     { description := "Get a list of all modules in the system"
       schema := .object (zshape []) }),
    ("check_doctype_exists",
     { description := "Check if a DocType exists in the system"
       schema := .object (zshape [("doctype", .string)]) }),
    ("get_doctype_schema",
     { description := "Get the complete schema for a DocType"
       schema := .object (zshape [("doctype", .string)]) }),
    ("list_documents",
     { description := "List documents from Frappe with filters"
       schema := .object (zshape (
         [("doctype", .string), ("filters", .optional .recordAny),
          ("fields", .optional (.array .string)), ("limit", .optional .number),
          ("order_by", .optional .string), ("limit_start", .optional .number)])) }),
    ("create_document",
     { description := "Create a new document in Frappe"
       schema := .object (zshape [("doctype", .string), ("values", .recordAny)]) }),
    ("get_document",
     { description := "Retrieve a document from Frappe"
       schema := .object (zshape (
         [("doctype", .string), ("name", .string),
          ("fields", .optional (.array .string))])) }),
    ("update_document",
     { description := "Update an existing document in Frappe"
       schema := .object (zshape (
         [("doctype", .string), ("name", .string), ("values", .recordAny)])) }),
    ("delete_document",
     { description := "Delete a document from Frappe"
       schema := .object (zshape [("doctype", .string), ("name", .string)]) }),
    ("get_field_options",
     { description := "Get available options for a Link or Select field"
       schema := .object (zshape (
         [("doctype", .string), ("fieldname", .string),
          ("filters", .optional .recordAny)])) }),
    ("get_frappe_usage_info",
     { description := "Get combined information about a DocType or workflow"
       schema := .object (zshape (
         [("doctype", .optional .string), ("workflow", .optional .string)])) }),
    ("get_doctypes_in_module",
     { description := "Get a list of DocTypes in a specific module"
       schema := .object (zshape [("module", .string)]) }),
    ("check_document_exists",
     { description := "Check if a document exists"
       schema := .object (zshape [("doctype", .string), ("name", .string)]) }),
    ("get_document_count",
     { description := "Get a count of documents matching filters"
       schema := .object (zshape [("doctype", .string), ("filters", .optional .recordAny)]) }),
    ("get_naming_info",
     { description := "Get the naming series information for a DocType"
       schema := .object (zshape [("doctype", .string)]) }),
    ("get_required_fields",
     { description := "Get a list of required fields for a DocType"
       schema := .object (zshape [("doctype", .string)]) }),
    ("get_api_instructions",
     { description := "Get detailed instructions for using the Frappe API"
       schema := .object (zshape [("category", .string), ("operation", .string)]) }),
    ("version",
     { description := "Get version information for the Frappe MCP server"
       schema := .object (zshape []) }),
    ("call_method",
     { description := "Execute a whitelisted Frappe method"
       schema := .object (zshape [("method", .string), ("params", .optional .recordAny)]) }),
    ("reconcile_bank_transaction_with_vouchers",
     { description := "Reconciles a Bank Transaction document with specified vouchers"
       schema := .object (zshape (
         [("bank_transaction_name", .string),
          ("vouchers", .array (.object (zshape
            [("payment_doctype", .string), ("payment_name", .string),
             ("amount", .number)])))])) }),
    ("run_query_report",
     { description := "Execute a Frappe query report with filters"
       schema := .object (zshape (
         [("report_name", .string), ("filters", .optional .recordAny),
          ("user", .optional .string)])) }),
    ("get_report_meta",
     { description := "Get metadata for a specific report including columns and filters"
       schema := .object (zshape [("report_name", .string)]) }),
    ("list_reports",
     { description := "Get a list of all available reports in the system"
       schema := .object (zshape [("module", .optional .string)]) }),
    ("export_report",
     { description := "Export a report in PDF, Excel, or CSV format"
       schema := .object (zshape (
         [("report_name", .string), ("file_format", .enumOf ["PDF", "Excel", "CSV"]),
          ("filters", .optional .recordAny),
          ("visible_idx", .optional (.array .number))])) }),
    ("get_financial_statements",
     { description := "Get standard financial reports (P&L, Balance Sheet, Cash Flow)"
       schema := .object (zshape (
         [("report_type", .enumOf
            ["Profit and Loss Statement", "Balance Sheet", "Cash Flow"]),
          ("company", .string), ("from_date", .string), ("to_date", .string),
          ("periodicity", .optional (.enumOf
            ["Monthly", "Quarterly", "Half-Yearly", "Yearly"])),
          ("include_default_book_entries", .optional .boolean)])) }),
    ("get_report_columns",
     { description := "Get the column structure for a specific report"
       schema := .object (zshape [("report_name", .string), ("filters", .optional .recordAny)]) }),
    ("run_doctype_report",
     { description := "Run a standard doctype report with filters and sorting"
       schema := .object (zshape (
         [("doctype", .string), ("fields", .optional (.array .string)),
          ("filters", .optional .recordAny), ("order_by", .optional .string),
          ("limit", .optional .number)])) }) ]

/-- Lookup of an own registry entry by key (the own-property part of the
tools[toolName] access; the full access, including the members the object
literal inherits from Object.prototype, is toolAccess below). -/
def lookupTool (name : String) : Option ToolDef :=
  (tools.find? (fun t => t.1 = name)).map (fun t => t.2)

/-- Object.keys(tools): the full list of registered tool names. -/
def availableToolNames : List String := tools.map (fun t => t.1)

/-- categorizeTools of src/schema-generator.ts: the category → tool-name
partition published alongside the registry. -/
def categorizeTools : List (String × List String) :=
  [ ("document",
     ["create_document", "get_document", "update_document",
      "delete_document", "list_documents", "reconcile_bank_transaction_with_vouchers"]),
    ("schema",
     ["get_doctype_schema", "get_field_options", "get_frappe_usage_info"]),
    ("helper",
     ["find_doctypes", "get_module_list", "get_doctypes_in_module",
      "check_doctype_exists", "check_document_exists", "get_document_count",
      "get_naming_info", "get_required_fields", "get_api_instructions"]),
    ("report",
     ["run_query_report", "get_report_meta", "list_reports", "export_report",
      "get_financial_statements", "get_report_columns", "run_doctype_report"]),
    ("system",
     ["ping", "version", "call_method"]) ]

/-- getToolCategories of src/schema-generator.ts, as the JSON fields the
endpoints serialize. -/
def getToolCategories : List (String × Json) :=
  [ ("document", .obj
      [("name", .str "Document Operations"),
       ("description", .str "Create, read, update, delete documents in Frappe"),
       ("icon", .str "📄")]),
    ("schema", .obj
      [("name", .str "Schema Operations"),
       ("description", .str "Get DocType schemas, field options, and metadata"),
       ("icon", .str "🏗️")]),
    ("helper", .obj
      [("name", .str "Helper Tools"),
       ("description", .str "Utility functions for system exploration"),
       ("icon", .str "🔧")]),
    ("report", .obj
      [("name", .str "Report Operations"),
       ("description", .str "Generate and export reports from Frappe"),
       ("icon", .str "📊")]),
    ("system", .obj
      [("name", .str "System Tools"),
       ("description", .str "Server information and system utilities"),
       ("icon", .str "⚙️")]) ]

/-- The category assigned to a tool by the tools/list projection: the first
category whose tool list contains the name, defaulting to system. -/
def toolCategoryOf (name : String) : String :=
  match categorizeTools.find? (fun c => c.2.contains name) with
  | some c => c.1
  | none => "system"

/-!
## Prompts (src/prompts.ts)

listPrompts returns a static catalog.  getPrompt dispatches on the prompt
name to a generator; the generators for analyze_doctype, design_workflow
and data_migration call the external Frappe helpers findDocTypes and
getModuleList, whose outcomes (including thrown exceptions) are supplied
by a collaborator environment.  getPrompt wraps the whole dispatch in a
try/catch that logs and returns null, so a collaborator exception is
indistinguishable from an unknown prompt name to the caller.

The generators interpolate their inputs into long static prose messages.
The embedding keeps every interpolation (with the exact surrounding
fragments at each interpolation point) and elides the purely static
middle prose, which no control flow and no claim depends on.
-/

/-- A catalog entry argument descriptor. -/
structure PromptArg where
  name : String
  description : String
  required : Bool

/-- A catalog entry, as listPrompts returns it. -/
structure Prompt where
  name : String
  description : String
  arguments : List PromptArg

/-- One message of a generated prompt.  role is user for every generated
message in the source; content type is always text. -/
structure PromptMessage where
  role : String
  contentType : String
  text : String

/-- The GetPromptResult shape of src/prompts.ts. -/
structure GetPromptResult where
  description : String
  messages : List PromptMessage

/-- listPrompts of src/prompts.ts: the static prompt catalog. -/
def listPrompts : List Prompt :=
  [ { name := "analyze_doctype"
      description := "Analyze a DocType structure and suggest improvements"
      arguments :=
        [ { name := "doctype_name", description := "Name of the DocType to analyze"
            required := true } ] },
    { name := "generate_api_usage"
      description := "Generate API usage examples for a specific DocType"
      arguments :=
        [ { name := "doctype_name", description := "DocType to generate API examples for"
            required := true },
          { name := "operation"
            description := "API operation (create, read, update, delete, list)"
            required := false } ] },
    { name := "design_workflow"
      description := "Design a business workflow using Frappe DocTypes"
      arguments :=
        [ { name := "business_process", description := "Description of the business process"
            required := true },
          { name := "modules"
            description := "Relevant modules to consider (comma-separated)"
            required := false } ] },
    { name := "troubleshoot_setup"
      description := "Help troubleshoot Frappe setup or configuration issues"
      arguments :=
        [ { name := "issue_description", description := "Description of the issue or error"
            required := true },
          { name := "module", description := "Module where the issue occurs"
            required := false } ] },
    { name := "optimize_performance"
      description := "Analyze and suggest performance optimizations"
      arguments :=
        [ { name := "performance_issue", description := "Description of performance problem"
            required := true },
          { name := "doctype_name", description := "Specific DocType with performance issues"
            required := false } ] },
    { name := "create_custom_report"
      description := "Guide through creating a custom report"
      arguments :=
        [ { name := "report_requirements", description := "What data the report should show"
            required := true },
          { name := "report_type", description := "Type of report (query, script, print)"
            required := false } ] },
    { name := "integration_planning"
      description := "Plan integration with external systems"
      arguments :=
        [ { name := "external_system", description := "External system to integrate with"
            required := true },
          { name := "integration_type", description := "Type of integration (webhook, api, file)"
            required := false } ] },
    { name := "data_migration"
      description := "Plan data migration strategy"
      arguments :=
        [ { name := "source_system", description := "Source system for data migration"
            required := true },
          { name := "target_doctypes", description := "Target DocTypes for migration"
            required := false } ] } ]

/-- The external Frappe helper collaborators consumed by the prompt
generators.  An .error value models a thrown exception.  findDocTypes is
modelled by the list of matching DocType names (only the name field of
its results is ever read, via doctypes.map of dt.name). -/
structure CollabEnv where
  findDocTypes : Option Json → Except String (List String)
  getModuleList : Except String (List String)

/-- Message text of generateDocTypeAnalysisPrompt: interpolation skeleton
of the source prose (static middle text elided). -/
def docTypeAnalysisText (doctypeName : String) (doctypeNames modules : List String) : String :=
  "Please analyze the DocType \x22" ++ doctypeName ++ "\x22 in Frappe and provide insights on: " ++
  "Available DocTypes in system: " ++ String.intercalate ", " doctypeNames ++
  " Available Modules: " ++ String.intercalate ", " (modules.take 10) ++
  " Please provide specific, actionable recommendations."

/-- generateDocTypeAnalysisPrompt: looks up matching DocTypes (limit 5) and
the module list, then renders the analysis request. -/
def generateDocTypeAnalysisPrompt (env : CollabEnv) (doctypeName : Option Json) :
    Except String GetPromptResult := do
  let doctypes ← env.findDocTypes doctypeName
  let modules ← env.getModuleList
  pure { description :=
           "Analyze the " ++ jsTemplate doctypeName ++
           " DocType structure and suggest improvements"
         messages :=
           [ { role := "user", contentType := "text"
               text := docTypeAnalysisText (jsTemplate doctypeName) doctypes modules } ] }

/-- Message text of generateApiUsagePrompt (interpolation skeleton). -/
def apiUsageText (doctypeName : String) (operations : List String) : String :=
  "Generate comprehensive API usage examples for the DocType \x22" ++ doctypeName ++
  "\x22 covering these operations: " ++ String.intercalate ", " operations ++ "."

/-- generateApiUsagePrompt: pure; a truthy operation argument narrows the
covered operation list. -/
def generateApiUsagePrompt (doctypeName operation : Option Json) :
    Except String GetPromptResult :=
  let operations :=
    if jsTruthyOpt operation then [jsTemplate operation]
    else ["create", "read", "update", "delete", "list"]
  .ok { description :=
          "Generate comprehensive API usage examples for " ++ jsTemplate doctypeName
        messages :=
          [ { role := "user", contentType := "text"
              text := apiUsageText (jsTemplate doctypeName) operations } ] }

/-- Message text of generateWorkflowDesignPrompt (interpolation skeleton). -/
def workflowDesignText (businessProcess : String) (relevantModules availableModules : List String) : String :=
  "Help me design a comprehensive Frappe workflow for this business process: " ++
  businessProcess ++
  (if relevantModules.length > 0 then
     " Relevant Modules: " ++ String.intercalate ", " relevantModules
   else "") ++
  " Available modules in system: " ++ String.intercalate ", " (availableModules.take 15)

/-- generateWorkflowDesignPrompt: fetches the module list; a truthy modules
argument is split on commas and trimmed. -/
def generateWorkflowDesignPrompt (env : CollabEnv) (businessProcess modules : Option Json) :
    Except String GetPromptResult := do
  let availableModules ← env.getModuleList
  let relevantModules :=
    if jsTruthyOpt modules then
      ((jsTemplate modules).splitOn ",").map (fun m => m.trim)
    else []
  pure { description := "Design a Frappe workflow for: " ++ jsTemplate businessProcess
         messages :=
           [ { role := "user", contentType := "text"
               text := workflowDesignText (jsTemplate businessProcess)
                         relevantModules availableModules } ] }

/-- generateTroubleshootPrompt: pure interpolation. -/
def generateTroubleshootPrompt (issueDescription module : Option Json) :
    Except String GetPromptResult :=
  .ok { description := "Troubleshoot Frappe issue: " ++ jsTemplate issueDescription
        messages :=
          [ { role := "user", contentType := "text"
              text := "Help me troubleshoot this Frappe issue: " ++
                jsTemplate issueDescription ++
                (if jsTruthyOpt module then " Module: " ++ jsTemplate module else "") } ] }

/-- generatePerformancePrompt: pure interpolation. -/
def generatePerformancePrompt (performanceIssue doctypeName : Option Json) :
    Except String GetPromptResult :=
  .ok { description := "Optimize Frappe performance for: " ++ jsTemplate performanceIssue
        messages :=
          [ { role := "user", contentType := "text"
              text := "Help me optimize Frappe performance for this issue: " ++
                jsTemplate performanceIssue ++
                (if jsTruthyOpt doctypeName then
                   " Affected DocType: " ++ jsTemplate doctypeName
                 else "") } ] }

/-- generateReportCreationPrompt: pure; a truthy report_type narrows the
considered type list. -/
def generateReportCreationPrompt (reportRequirements reportType : Option Json) :
    Except String GetPromptResult :=
  let types :=
    if jsTruthyOpt reportType then [jsTemplate reportType]
    else ["query", "script", "print"]
  .ok { description := "Create custom Frappe report: " ++ jsTemplate reportRequirements
        messages :=
          [ { role := "user", contentType := "text"
              text := "Guide me through creating a custom Frappe report with these requirements: " ++
                jsTemplate reportRequirements ++
                " Report Types to Consider: " ++ String.intercalate ", " types } ] }

/-- generateIntegrationPrompt: pure; a truthy integration_type narrows the
considered type list. -/
def generateIntegrationPrompt (externalSystem integrationType : Option Json) :
    Except String GetPromptResult :=
  let types :=
    if jsTruthyOpt integrationType then [jsTemplate integrationType]
    else ["webhook", "api", "file"]
  .ok { description := "Plan integration with " ++ jsTemplate externalSystem
        messages :=
          [ { role := "user", contentType := "text"
              text := "Help me plan integration between Frappe and " ++
                jsTemplate externalSystem ++
                " Integration Types to Consider: " ++ String.intercalate ", " types } ] }

/-- generateMigrationPrompt: fetches the module list. -/
def generateMigrationPrompt (env : CollabEnv) (sourceSystem targetDoctypes : Option Json) :
    Except String GetPromptResult := do
  let modules ← env.getModuleList
  pure { description := "Plan data migration from " ++ jsTemplate sourceSystem ++ " to Frappe"
         messages :=
           [ { role := "user", contentType := "text"
               text := "Help me plan data migration from " ++ jsTemplate sourceSystem ++
                 " to Frappe: " ++
                 (if jsTruthyOpt targetDoctypes then
                    " Target DocTypes: " ++ jsTemplate targetDoctypes
                  else "") ++
                 " Available DocTypes in target modules: " ++
                 String.intercalate ", " (modules.take 10) } ] }

/-- The switch body of getPrompt: routes a prompt name to its generator
(propagating collaborator exceptions) and yields .ok none for a name
outside the catalog (the default arm returns null directly). -/
def getPromptCore (env : CollabEnv) (name : Json) (args : Json) :
    Except String (Option GetPromptResult) :=
  match name with
  | .str s =>
    if s = "analyze_doctype" then
      (generateDocTypeAnalysisPrompt env (jGet args "doctype_name")).map some
    else if s = "generate_api_usage" then
      (generateApiUsagePrompt (jGet args "doctype_name") (jGet args "operation")).map some
    else if s = "design_workflow" then
      (generateWorkflowDesignPrompt env (jGet args "business_process") (jGet args "modules")).map some
    else if s = "troubleshoot_setup" then
      (generateTroubleshootPrompt (jGet args "issue_description") (jGet args "module")).map some
    else if s = "optimize_performance" then
      (generatePerformancePrompt (jGet args "performance_issue") (jGet args "doctype_name")).map some
    else if s = "create_custom_report" then
      (generateReportCreationPrompt (jGet args "report_requirements") (jGet args "report_type")).map some
    else if s = "integration_planning" then
      (generateIntegrationPrompt (jGet args "external_system") (jGet args "integration_type")).map some
    else if s = "data_migration" then
      (generateMigrationPrompt env (jGet args "source_system") (jGet args "target_doctypes")).map some
    else
      .ok none
  -- a non-string name matches no case of the switch and falls to default
  | _ => .ok none

/-- getPrompt of src/prompts.ts.  The surrounding try/catch logs any
exception and returns null, so the caller observes none both for an
unknown name and for a collaborator exception. -/
def getPrompt (env : CollabEnv) (name : Json) (args : Json) : Option GetPromptResult :=
  match getPromptCore env name args with
  | .ok r => r
  | .error _ => none

/-- JSON serialization of a generated prompt, as res.json emits it. -/
def promptResultJson (p : GetPromptResult) : Json :=
  .obj [("description", .str p.description),
        ("messages", .arr (p.messages.map (fun m =>
          .obj [("role", .str m.role),
                ("content", .obj [("type", .str m.contentType),
                                  ("text", .str m.text)])])))]

/-- JSON serialization of a catalog entry, as res.json emits it. -/
def promptJson (p : Prompt) : Json :=
  .obj [("name", .str p.name), ("description", .str p.description),
        ("arguments", .arr (p.arguments.map (fun a =>
          .obj [("name", .str a.name), ("description", .str a.description),
                ("required", .bool a.required)])))]

/-!
## The POST / dispatcher (streamable-http-server.ts, app.post)

The Express handler is embedded as a pure function from a structured
request and a collaborator environment to a list of primitive response
effects, in the order the source performs them.  Streaming delivery
(writeHead + SSE data frames + res.end) and buffered delivery
(res.status(...).json(...) / res.status(204).end()) appear as distinct
effects; handler invocation is a dedicated effect so that claims about
handlers never being invoked are statements about the trace.  The outer
try/catch of the source is unreachable in the embedding, because every
operation the embedded switch performs is total and every collaborator
outcome (including exceptions) is already caught by the inner handlers
that the source wraps around each collaborator call.
-/

/-- A JSON-RPC error object. -/
structure RpcError where
  code : Int
  message : String
  data : Option Json

/-- A JSON-RPC response payload: the id echoed from the request (none when
the field would serialize as absent) and either a result or an error. -/
structure RpcOut where
  id : Option Json
  result : Option Json
  error : Option RpcError

/-- One SSE data frame: either a JSON-RPC response-shaped frame or the
tools/call/progress notification frame sent before a streamed handler
invocation. -/
inductive Frame where
  | rpc (out : RpcOut) : Frame
  | progress (tool : String) : Frame

/-- A primitive response effect, in source order. -/
inductive Effect where
  | writeHead (status : Nat) : Effect
  | frame (f : Frame) : Effect
  | jsonBody (status : Nat) (out : RpcOut) : Effect
  | noContent : Effect
  | invoke (tool : String) (args : Json) : Effect
  | endStream : Effect

/-- The repeated delivery pattern of every switch arm: one terminal SSE
frame followed by res.end when streaming, or one buffered JSON body with
the given HTTP status otherwise. -/
def emit (streaming : Bool) (status : Nat) (out : RpcOut) : List Effect :=
  if streaming then [.frame (.rpc out), .endStream] else [.jsonBody status out]

/-- The external collaborators and ambient configuration the dispatcher
consumes: the package version, the development-mode flag, tool handler
outcomes (an .error value is a thrown exception, carrying its message),
the resource provider, and the Frappe helpers used by prompt
generators. -/
structure Env where
  version : String
  developmentMode : Bool
  toolOutcome : String → Json → Except String Json
  listResourcesE : Except String (List Json)
  resourceCategories : Json
  getResourceE : Json → Except String (Option Json)
  collab : CollabEnv

/-- The inbound POST request after body parsing and the session middleware:
the envelope fields, the relevant headers, and the session resolved from
the x-session-id header (none when the header was absent or unknown). -/
structure HttpRequest where
  jsonrpc : Option Json
  id : Option Json
  method : Option String
  params : Option Json
  userAgent : Option String
  accept : Option String
  session : Option String

/-- The streamable method prefix allowlist. -/
def streamableMethods : List String := ["resources/read", "prompts/run"]

/-- shouldStream of streamable-http-server.ts: Cursor agents never stream;
otherwise a method streams when it starts with an allowlisted prefix. -/
def shouldStream (method : Option String) (userAgent : Option String) : Bool :=
  if (userAgent.map (fun ua => strIncludes ua "Cursor")).getD false then false
  else streamableMethods.any (fun m =>
    (method.map (fun s => strStartsWith s m)).getD false)

/-- True when the Accept header declares text/event-stream. -/
def acceptsEventStream (accept : Option String) : Bool :=
  (accept.map (fun a => strIncludes a "text/event-stream")).getD false

/-- The initial streaming acknowledgement frame result. -/
def streamAck (session : Option String) : Json :=
  jObjOpt [("streaming", some (.bool true)), ("sessionId", session.map .str)]

/-- The capabilities object of the initialize response. -/
def capabilitiesJson : Json :=
  .obj [("tools", .obj [("listChanged", .bool true)]),
        ("resources", .obj [("subscribe", .bool true), ("listChanged", .bool true)]),
        ("prompts", .obj [("listChanged", .bool true)]),
        ("logging", .obj [("level", .str "info")])]

/-- The initialize result: protocol version, capabilities, server identity
and the session id (omitted when no session exists). -/
def initResultJson (env : Env) (session : Option String) : Json :=
  jObjOpt [("protocolVersion", some (.str "2025-06-18")),
           ("capabilities", some capabilitiesJson),
           ("serverInfo", some (.obj
             [("name", .str "frappe-mcp-server"), ("version", .str env.version)])),
           ("sessionId", session.map .str)]

/-- One tools/list entry: the registry row plus its category and the
category metadata (categoryInfo is always found, since toolCategoryOf
only yields keys of getToolCategories). -/
def toolEntryJson (name : String) (td : ToolDef) : Json :=
  let category := toolCategoryOf name
  jObjOpt [("name", some (.str name)),
           ("description", some (.str td.description)),
           ("inputSchema", some (zodToJsonSchema td.schema)),
           ("category", some (.str category)),
           ("categoryInfo", (getToolCategories.find? (fun c => c.1 = category)).map (fun c => c.2))]

/-- The tools/list result: the projected registry, the category metadata
and the total count. -/
def toolsListResultJson : Json :=
  .obj [("tools", .arr (tools.map (fun t => toolEntryJson t.1 t.2))),
        ("categories", .obj getToolCategories),
        ("totalTools", .num tools.length)]

/-- Resolution of a truthy string name against the registry's own
entries; this names the hit case of the full property access (the lemma
toolAccess_of_resolveTool below connects the two) and is the hypothesis
shape of the known-tool claims. -/
def resolveTool (nameJ : Option Json) : Option (String × ToolDef) :=
  match nameJ with
  | some (.str s) =>
      if s = "" then none
      else (lookupTool s).map (fun td => (s, td))
  | _ => none

/-- The members every object literal inherits from Object.prototype:
indexing the registry with one of these names resolves a truthy inherited
value (a function, or Object.prototype itself for __proto__) even though
the registry has no such entry. -/
def objectPrototypeKeys : List String :=
  ["constructor", "hasOwnProperty", "isPrototypeOf", "propertyIsEnumerable",
   "toLocaleString", "toString", "valueOf", "__proto__",
   "__defineGetter__", "__defineSetter__", "__lookupGetter__", "__lookupSetter__"]

/-- The three ways the guarded access if (!toolName || !tools[toolName])
can go for params.name: an own registry entry (hit), a truthy member
inherited from Object.prototype (which passes the guard but carries no
schema), or the unknown-tool arm (falsy name, or a property key that
resolves nothing). -/
inductive ToolAccess where
  | hit (name : String) (toolDef : ToolDef) : ToolAccess
  | inheritedMember (key : String) : ToolAccess
  | miss : ToolAccess

/-- The property key a truthy name coerces to (the ToString coercion
jsTemplate also implements); a falsy name fails the !toolName guard
before any property access happens. -/
def toolPropertyKey (v : Json) : Option String :=
  if jsTruthy v then some (jsTemplate (some v)) else none

/-- The full tools[toolName] access behind the guard: own registry
entries shadow nothing (no registry name collides with a prototype
member), an inherited Object.prototype member is found when no own entry
is, and everything else is a miss. -/
def toolAccess (nameJ : Option Json) : ToolAccess :=
  match nameJ with
  | none => .miss
  | some v =>
      match toolPropertyKey v with
      | none => .miss
      | some key =>
          match lookupTool key with
          | some td => .hit key td
          | none =>
              if objectPrototypeKeys.contains key then .inheritedMember key
              else .miss

/-- The data field of the unknown-tool error: the registry name set. -/
def availableToolsData : Json :=
  .obj [("availableTools", .arr (availableToolNames.map .str))]

/-- The TypeError thrown by toolDef.schema.parse when toolDef is an
inherited Object.prototype member, whose schema property is undefined. -/
def cannotReadParseMessage : String :=
  "Cannot read properties of undefined (reading \x27parse\x27)"

/-- The TypeError thrown by destructuring params when it is null. -/
def cannotDestructureNameMessage : String :=
  "Cannot destructure property \x27name\x27 of \x27params\x27 as it is null."

/-- The tools/call switch arm.  Destructuring a null params throws a
TypeError that propagates to the outer catch of the POST handler, whose
observable effect (one 500 body carrying id or null, or one terminal
error frame when headers were already sent) is folded into this arm.
Unknown or falsy name: not-found error carrying the registry names,
handler untouched.  A name resolving an inherited Object.prototype
member passes the !tools[toolName] guard, but reading .parse of its
undefined schema throws the TypeError the catch reports as -32603 with
no data, before any progress frame or handler call.  Known name:
validate the arguments; a validation failure reports the violations as
error data with the handler untouched; otherwise the handler runs
(preceded in streaming mode by a progress frame) and its outcome or
thrown error is framed. -/
def toolsCallCase (env : Env) (params : Json) (id : Option Json) (streaming : Bool) :
    List Effect :=
  if isNullJson params then
    emit streaming 500
      { id := some (jsOrNull id), result := none
        error := some
          { code := -32603, message := cannotDestructureNameMessage, data := none } }
  else
  let nameJ := jGet params "name"
  let toolArgs := (jGet params "arguments").getD (.obj [])
  match toolAccess nameJ with
  | .miss =>
      emit streaming 404
        { id := id, result := none
          error := some
            { code := -32601
              message := "Tool \x27" ++ jsTemplate nameJ ++ "\x27 not found"
              data := some availableToolsData } }
  | .inheritedMember _ =>
      emit streaming 500
        { id := id, result := none
          error := some
            { code := -32603, message := cannotReadParseMessage, data := none } }
  | .hit toolName toolDef =>
      match zodParse toolDef.schema toolArgs with
      | .error issues =>
          emit streaming 500
            { id := id, result := none
              error := some
                { code := -32602
                  message := zodErrorMessage issues
                  data := some (issuesJson issues) } }
      | .ok validatedArgs =>
          (if streaming then [.frame (.progress toolName)] else []) ++
          .invoke toolName validatedArgs ::
          (match env.toolOutcome toolName validatedArgs with
           | .ok result =>
               emit streaming 200 { id := id, result := some result, error := none }
           | .error msg =>
               emit streaming 500
                 { id := id, result := none
                   error := some { code := -32603, message := msg, data := none } })

/-- Diagnostic data attached to internal errors: the raw error in
development mode (modelled by its message), nothing otherwise. -/
def devErrData (env : Env) (msg : String) : Option Json :=
  if env.developmentMode then some (.str msg) else none

/-- The resources/list switch arm. -/
def resourcesListCase (env : Env) (id : Option Json) (streaming : Bool) : List Effect :=
  match env.listResourcesE with
  | .ok resources =>
      emit streaming 200
        { id := id
          result := some (.obj
            [("resources", .arr resources),
             ("categories", env.resourceCategories),
             ("totalResources", .num resources.length)])
          error := none }
  | .error msg =>
      emit streaming 500
        { id := id, result := none
          error := some { code := -32603, message := msg, data := devErrData env msg } }

/-- The resources/read switch arm: falsy uri is invalid-params; an absent
resource is not-found; a collaborator exception is internal error. -/
def resourcesReadCase (env : Env) (params : Json) (id : Option Json) (streaming : Bool) :
    List Effect :=
  let uriJ := jGet params "uri"
  if ¬ jsTruthyOpt uriJ then
    emit streaming 400
      { id := id, result := none
        error := some
          { code := -32602, message := "Missing required parameter: uri", data := none } }
  else
    match env.getResourceE (uriJ.getD .null) with
    | .ok none =>
        emit streaming 404
          { id := id, result := none
            error := some
              { code := -32601
                message := "Resource not found: " ++ jsTemplate uriJ, data := none } }
    | .ok (some resource) =>
        emit streaming 200
          { id := id, result := some (.obj [("contents", .arr [resource])]), error := none }
    | .error msg =>
        emit streaming 500
          { id := id, result := none
            error := some { code := -32603, message := msg, data := devErrData env msg } }

/-- The prompts/list switch arm.  listPrompts is static and cannot throw,
so the catch arm of the source is unreachable here. -/
def promptsListCase (id : Option Json) (streaming : Bool) : List Effect :=
  emit streaming 200
    { id := id
      result := some (.obj
        [("prompts", .arr (listPrompts.map promptJson)),
         ("totalPrompts", .num listPrompts.length)])
      error := none }

/-- The prompts/get switch arm: falsy name is invalid-params; a null from
getPrompt (unknown name, or a collaborator exception swallowed by
getPrompt) is not-found.  The catch arm of the source (internal error)
is unreachable, because getPrompt never throws. -/
def promptsGetCase (env : Env) (params : Json) (id : Option Json) (streaming : Bool) :
    List Effect :=
  let nameJ := jGet params "name"
  let promptArgs := (jGet params "arguments").getD (.obj [])
  if ¬ jsTruthyOpt nameJ then
    emit streaming 400
      { id := id, result := none
        error := some
          { code := -32602, message := "Missing required parameter: name", data := none } }
  else
    match getPrompt env.collab (nameJ.getD .null) promptArgs with
    | none =>
        emit streaming 404
          { id := id, result := none
            error := some
              { code := -32601
                message := "Prompt not found: " ++ jsTemplate nameJ, data := none } }
    | some prompt =>
        emit streaming 200
          { id := id, result := some (promptResultJson prompt), error := none }

/-- The method switch of the POST handler, with the streaming flag the
source computes before entering the switch. -/
def dispatchMethod (env : Env) (req : HttpRequest) (session : Option String)
    (streaming : Bool) : List Effect :=
  let params := req.params.getD (.obj [])
  let id := req.id
  if req.method = some "initialize" then
    emit streaming 200 { id := id, result := some (initResultJson env session), error := none }
  else if req.method = some "tools/list" then
    emit streaming 200 { id := id, result := some toolsListResultJson, error := none }
  else if req.method = some "tools/call" then
    toolsCallCase env params id streaming
  else if req.method = some "resources/list" then
    resourcesListCase env id streaming
  else if req.method = some "resources/read" then
    resourcesReadCase env params id streaming
  else if req.method = some "prompts/list" then
    promptsListCase id streaming
  else if req.method = some "prompts/get" then
    promptsGetCase env params id streaming
  else if req.method = some "notifications/initialized" then
    if streaming then [.endStream] else [.noContent]
  else if req.method = some "notifications/message" then
    -- the id guard is JavaScript truthiness: a falsy id (absent, null, 0,
    -- empty string, false) takes the no-content arm
    if jsTruthyOpt id then
      [.jsonBody 400
        { id := id, result := none
          error := some
            { code := -32600
              message := "Notifications should not include an id", data := none } }]
    else [.noContent]
  else
    emit streaming 404
      { id := id, result := none
        error := some
          { code := -32601
            message := "Method \x27" ++ (req.method.getD "undefined") ++ "\x27 not found"
            data := none } }

/-- True exactly when the envelope carries the string 2.0, modelling the
strict comparison jsonrpc === "2.0". -/
def isJsonRpc2 (jsonrpc : Option Json) : Bool :=
  match jsonrpc with
  | some (.str s) => s = "2.0"
  | _ => false

/-- The POST / handler: envelope check, session resolution (a fresh id is
minted only for initialize without a session), streaming negotiation with
its header write and acknowledgement frame, then the method switch. -/
def handlePost (env : Env) (req : HttpRequest) (freshId : String) : List Effect :=
  if ¬ isJsonRpc2 req.jsonrpc then
    [.jsonBody 400
      { id := some (jsOrNull req.id), result := none
        error := some
          { code := -32600
            message := "Invalid Request - must use JSON-RPC 2.0", data := none } }]
  else
    let session : Option String :=
      match req.session with
      | some s => some s
      | none => if req.method = some "initialize" then some freshId else none
    let streaming := shouldStream req.method req.userAgent && acceptsEventStream req.accept
    let pre : List Effect :=
      if streaming then
        [.writeHead 200,
         .frame (.rpc { id := req.id, result := some (streamAck session), error := none })]
      else []
    pre ++ dispatchMethod env req session streaming

/-!
### Trace observers
-/

/-- True for handler invocation effects. -/
def Effect.isInvoke : Effect → Bool
  | .invoke _ _ => true
  | _ => false

/-- The JSON-RPC payloads a client can observe as the response: buffered
bodies and response-shaped SSE frames, in order. -/
def rpcPayloads (trace : List Effect) : List RpcOut :=
  trace.filterMap (fun e =>
    match e with
    | .jsonBody _ out => some out
    | .frame (.rpc out) => some out
    | _ => none)

/-- The last client-observable JSON-RPC payload of a trace: the buffered
body, or the terminal SSE frame. -/
def terminalPayload (trace : List Effect) : Option RpcOut :=
  (rpcPayloads trace).getLast?

/-- The error codes occurring anywhere in a trace, in order. -/
def errorCodes (trace : List Effect) : List Int :=
  (rpcPayloads trace).filterMap (fun out => out.error.map (fun e => e.code))

/-!
## Rate limiting (src/middleware.ts, rateLimitMiddleware)

The per-client window counters are a map from client identity to
RateLimitEntry.  The middleware is a state transition consuming the
current time; outside production mode it passes through untouched.  The
map is modelled as an association list whose update removes the old
binding; no observation in this development depends on key order.
-/

/-- A per-client window counter. -/
structure RateLimitEntry where
  count : Int
  resetTime : Int
deriving DecidableEq

/-- RATE_LIMIT_WINDOW: one minute, in milliseconds. -/
def RATE_LIMIT_WINDOW : Int := 60 * 1000

/-- RATE_LIMIT_MAX_REQUESTS: the per-window ceiling. -/
def RATE_LIMIT_MAX_REQUESTS : Int := 100

/-- The rate-limit store. -/
abbrev RateLimitStore := List (String × RateLimitEntry)

/-- Store lookup. -/
def storeGet (store : RateLimitStore) (clientId : String) : Option RateLimitEntry :=
  (store.find? (fun e => e.1 = clientId)).map (fun e => e.2)

/-- Store update (Map.set). -/
def storeSet (store : RateLimitStore) (clientId : String) (entry : RateLimitEntry) :
    RateLimitStore :=
  (clientId, entry) :: store.filter (fun e => ¬ e.1 = clientId)

/-- Math.ceil of an integer divided by 1000, exact for every integer. -/
def jsCeilDiv1000 (a : Int) : Int := (a + 999).ediv 1000

/-- The observable outcome of one pass through the rate-limit middleware:
skipped (development mode), short-circuited with the 429 response, or
passed through with the three rate-limit headers set. -/
inductive RateLimitOutcome where
  | skip : RateLimitOutcome
  | reject (status : Nat) (out : RpcOut) : RateLimitOutcome
  | pass (limitHeader remainingHeader resetHeader : Int) : RateLimitOutcome

/-- True for pass and skip outcomes (the request reaches the next stage). -/
def RateLimitOutcome.isPass : RateLimitOutcome → Bool
  | .pass _ _ _ => true
  | .skip => true
  | .reject _ _ => false

/-- The 429 short-circuit response. -/
def rateLimitReject (reqId : Option Json) (retryAfter : Int) : RateLimitOutcome :=
  .reject 429
    { id := some (jsOrNull reqId), result := none
      error := some
        { code := -32000, message := "Rate limit exceeded"
          data := some (.obj [("retryAfter", .num retryAfter)]) } }

/-- rateLimitMiddleware of src/middleware.ts: skipped outside production;
otherwise the client's entry is reset to a zero count with a fresh window
whenever it is missing or its window has elapsed (now strictly past
resetTime), the count is incremented and stored, and the request is
rejected exactly when the new count exceeds the ceiling, with
retryAfter the rounded-up seconds left in the window. -/
def rateLimitMiddleware (production : Bool) (store : RateLimitStore)
    (clientId : String) (reqId : Option Json) (now : Int) :
    RateLimitOutcome × RateLimitStore :=
  if ¬ production then (.skip, store)
  else
    let entry : RateLimitEntry :=
      match storeGet store clientId with
      | some e =>
          if now > e.resetTime then
            { count := 0, resetTime := now + RATE_LIMIT_WINDOW }
          else e
      | none => { count := 0, resetTime := now + RATE_LIMIT_WINDOW }
    let entry : RateLimitEntry := { entry with count := entry.count + 1 }
    let store2 := storeSet store clientId entry
    if entry.count > RATE_LIMIT_MAX_REQUESTS then
      (rateLimitReject reqId (jsCeilDiv1000 (entry.resetTime - now)), store2)
    else
      (.pass RATE_LIMIT_MAX_REQUESTS (max 0 (RATE_LIMIT_MAX_REQUESTS - entry.count))
        (jsCeilDiv1000 entry.resetTime), store2)

/-- Run one client's requests, in production mode, at the given times. -/
def runRateLimit (store : RateLimitStore) (clientId : String) (reqId : Option Json) :
    List Int → List RateLimitOutcome × RateLimitStore
  | [] => ([], store)
  | t :: ts =>
      let step := rateLimitMiddleware true store clientId reqId t
      let rest := runRateLimit step.2 clientId reqId ts
      (step.1 :: rest.1, rest.2)

/-!
## Metrics (src/middleware.ts, metricsMiddleware and errorHandlingMiddleware)

The success/error split, the per-status and per-tool tallies are updated
inside the res.json override that metricsMiddleware installs, so they
advance exactly when a request completes through res.json; a request that
completes through res.end (the 204 and SSE paths) records nothing, and
errorHandlingMiddleware additionally increments the error counter on its
own before sending its 500 response.  These three ways a request can
touch the counters are the event alphabet below.  The total counter is
incremented at request entry and the floating-point response-time average
is outside the integer model; neither is consumed by any claim.
-/

/-- The requests portion of the metrics store. -/
structure Metrics where
  total : Nat
  success : Nat
  error : Nat
  byTool : List (String × Nat)
  byStatus : List (Nat × Nat)
deriving DecidableEq

/-- The zero-initialised metrics store. -/
def initialMetrics : Metrics :=
  { total := 0, success := 0, error := 0, byTool := [], byStatus := [] }

/-- byStatus[s] = (byStatus[s] or 0) + 1, as a keyed tally update. -/
def bumpStatus : List (Nat × Nat) → Nat → List (Nat × Nat)
  | [], k => [(k, 1)]
  | e :: rest, k => if e.1 = k then (e.1, e.2 + 1) :: rest else e :: bumpStatus rest k

/-- byTool[name] = (byTool[name] or 0) + 1. -/
def bumpTool : List (String × Nat) → String → List (String × Nat)
  | [], k => [(k, 1)]
  | e :: rest, k => if e.1 = k then (e.1, e.2 + 1) :: rest else e :: bumpTool rest k

/-- The res.json override body of metricsMiddleware: classify the status
code into the success/error split, tally the status, and tally the tool
when the request was a tools/call naming one. -/
def recordResponseMetrics (m : Metrics) (status : Nat) (toolName : Option String) :
    Metrics :=
  let m1 :=
    if 200 ≤ status ∧ status < 300 then { m with success := m.success + 1 }
    else { m with error := m.error + 1 }
  let m2 := { m1 with byStatus := bumpStatus m1.byStatus status }
  match toolName with
  | some t => { m2 with byTool := bumpTool m2.byTool t }
  | none => m2

/-- The ways one request touches the counters: completion through the
patched res.json, completion through res.end with no json call, or the
standalone error increment of errorHandlingMiddleware. -/
inductive MetricsEvent where
  | jsonResponse (status : Nat) (toolName : Option String) : MetricsEvent
  | endWithoutJson : MetricsEvent
  | errorMw : MetricsEvent
deriving DecidableEq

/-- Apply one event to the store. -/
def applyMetricsEvent (m : Metrics) (e : MetricsEvent) : Metrics :=
  match e with
  | .jsonResponse status toolName => recordResponseMetrics m status toolName
  | .endWithoutJson => m
  | .errorMw => { m with error := m.error + 1 }

/-- Fold a sequence of events over the store. -/
def runMetrics (m : Metrics) (es : List MetricsEvent) : Metrics :=
  es.foldl applyMetricsEvent m

/-- The number of requests of a sequence whose status code was recorded
(those completing through the patched res.json). -/
def recordedCount (es : List MetricsEvent) : Nat :=
  es.countP (fun e => match e with | .jsonResponse _ _ => true | _ => false)

/-- The sum of the per-status counts. -/
def sumByStatus (m : Metrics) : Nat :=
  (m.byStatus.map (fun e => e.2)).sum

/-!
## Sessions (streamable-http-server.ts, session middleware and sweep)

A session record is observed by the sweep only through its lastActivity
time, so the session map is modelled as an association list from id to
lastActivity (milliseconds).  The sweep deletes exactly the entries whose
gap strictly exceeds the timeout at sweep time and reports the number
removed; the touch of the session middleware rewrites lastActivity of an
existing id and is a no-op on absent ids.
-/

/-- SESSION_TIMEOUT: thirty minutes, in milliseconds. -/
def SESSION_TIMEOUT : Int := 30 * 60 * 1000

/-- The session map: id to lastActivity. -/
abbrev SessionMap := List (String × Int)

/-- Session lookup. -/
def sessionGet (sessions : SessionMap) (sid : String) : Option Int :=
  (sessions.find? (fun e => e.1 = sid)).map (fun e => e.2)

/-- The sweep body: delete every session whose inactivity gap strictly
exceeds the timeout, returning the surviving map and the removed count. -/
def sessionSweep (now : Int) (sessions : SessionMap) : SessionMap × Nat :=
  (sessions.filter (fun e => decide (now - e.2 ≤ SESSION_TIMEOUT)),
   (sessions.filter (fun e => decide (now - e.2 > SESSION_TIMEOUT))).length)

/-- The session middleware touch: lastActivity = now when the id is
present; no-op otherwise. -/
def touchSession (sessions : SessionMap) (sid : String) (now : Int) : SessionMap :=
  sessions.map (fun e => if e.1 = sid then (e.1, now) else e)

/-!
## Helper lemmas
-/

/-- A method that starts with neither allowlisted prefix never streams. -/
theorem shouldStream_eq_false_of (m : String) (ua : Option String)
    (h1 : strStartsWith m "resources/read" = false)
    (h2 : strStartsWith m "prompts/run" = false) :
    shouldStream (some m) ua = false := by
  unfold shouldStream
  split
  · rfl
  · simp [streamableMethods, h1, h2]

/-- Under a tools/call method the switch reduces to the tools/call arm. -/
theorem dispatch_toolsCall (env : Env) (req : HttpRequest) (session : Option String)
    (streaming : Bool) (hm : req.method = some "tools/call") :
    dispatchMethod env req session streaming =
      toolsCallCase env (req.params.getD (.obj [])) req.id streaming := by
  unfold dispatchMethod
  dsimp only
  rw [hm]
  rw [if_neg (by decide), if_neg (by decide), if_pos rfl]

/-- A request whose method never streams is delivered buffered: the POST
handler is exactly the method switch with the streaming flag off. -/
theorem handlePost_nostream (env : Env) (req : HttpRequest) (freshId : String)
    (hrpc : isJsonRpc2 req.jsonrpc = true)
    (hss : shouldStream req.method req.userAgent = false) :
    handlePost env req freshId =
      dispatchMethod env req
        (match req.session with
         | some s => some s
         | none => if req.method = some "initialize" then some freshId else none)
        false := by
  unfold handlePost
  rw [if_neg (by simp [hrpc])]
  dsimp only
  rw [hss]
  rfl

/-- A some-result of resolveTool pins the name to a truthy string naming
an own registry entry. -/
theorem resolveTool_eq_some (nameJ : Option Json) (n : String) (td : ToolDef)
    (h : resolveTool nameJ = some (n, td)) :
    nameJ = some (.str n) ∧ lookupTool n = some td ∧ ¬ n = "" := by
  cases nameJ with
  | none => exact Option.noConfusion h
  | some v =>
      cases v with
      | null => exact Option.noConfusion h
      | bool b => exact Option.noConfusion h
      | num m => exact Option.noConfusion h
      | arr xs => exact Option.noConfusion h
      | obj fs => exact Option.noConfusion h
      | str t =>
          unfold resolveTool at h
          dsimp only at h
          by_cases ht : t = ""
          · rw [if_pos ht] at h
            exact Option.noConfusion h
          · rw [if_neg ht] at h
            cases hl : lookupTool t with
            | none =>
                rw [hl] at h
                exact Option.noConfusion h
            | some td2 =>
                rw [hl] at h
                simp at h
                obtain ⟨h1, h2⟩ := h
                subst h1
                subst h2
                exact ⟨rfl, hl, ht⟩

/-- An own registry entry is exactly the hit case of the full property
access: no registry name collides with an Object.prototype member, so the
guarded tools[toolName] access of the source agrees with resolveTool on
every name resolveTool accepts. -/
theorem toolAccess_of_resolveTool (nameJ : Option Json) (n : String) (td : ToolDef)
    (h : resolveTool nameJ = some (n, td)) :
    toolAccess nameJ = .hit n td := by
  obtain ⟨hn, hl, ht⟩ := resolveTool_eq_some nameJ n td h
  subst hn
  unfold toolAccess
  dsimp only
  rw [show toolPropertyKey (.str n) = some n from by
        unfold toolPropertyKey
        rw [if_pos (show jsTruthy (.str n) = true from decide_eq_true ht)]
        rfl]
  dsimp only
  rw [hl]

/-- A successful property read shows the params value was not null. -/
theorem isNullJson_false_of_jGet (params : Json) (k : String) (v : Json)
    (h : jGet params k = some v) : isNullJson params = false := by
  cases params with
  | null => exact Option.noConfusion h
  | bool b => rfl
  | num n => rfl
  | str t => rfl
  | arr xs => rfl
  | obj fs => rfl

/-- Claim C1: a tools/call request naming a known tool whose arguments fail
that tool's validator is answered with a single buffered invalid-params
error (code −32602) whose data field is the structured violation list,
and the tool handler is never invoked. -/
theorem claim_c1_schema_rejection (env : Env) (req : HttpRequest) (freshId : String)
    (toolName : String) (toolDef : ToolDef) (issues : List ZodIssue)
    (hrpc : isJsonRpc2 req.jsonrpc = true)
    (hm : req.method = some "tools/call")
    (hresolve : resolveTool (jGet (req.params.getD (.obj [])) "name") =
      some (toolName, toolDef))
    (hparse : zodParse toolDef.schema
      ((jGet (req.params.getD (.obj [])) "arguments").getD (.obj [])) =
      .error issues) :
    handlePost env req freshId =
      [.jsonBody 500
        { id := req.id, result := none
          error := some
            { code := -32602, message := zodErrorMessage issues
              data := some (issuesJson issues) } }] ∧
    ∀ e ∈ handlePost env req freshId, e.isInvoke = false := by
  have hss : shouldStream req.method req.userAgent = false := by
    rw [hm]
    exact shouldStream_eq_false_of _ _ rfl rfl
  have hfull : handlePost env req freshId =
      [.jsonBody 500
        { id := req.id, result := none
          error := some
            { code := -32602, message := zodErrorMessage issues
              data := some (issuesJson issues) } }] := by
    rw [handlePost_nostream env req freshId hrpc hss,
        dispatch_toolsCall env req _ false hm]
    have hsome := resolveTool_eq_some _ _ _ hresolve
    have hnn : isNullJson (req.params.getD (.obj [])) = false :=
      isNullJson_false_of_jGet _ _ _ hsome.1
    unfold toolsCallCase
    rw [if_neg (by simp [hnn])]
    dsimp only
    rw [toolAccess_of_resolveTool _ _ _ hresolve]
    dsimp only
    rw [hparse]
    rfl
  refine ⟨hfull, ?_⟩
  intro e he
  rw [hfull] at he
  simp only [List.mem_singleton] at he
  subst he
  rfl

/-- Claim C2, amended: a tools/call request whose non-null params carry a
name whose property access resolves neither an own registry entry nor an
inherited Object.prototype member is answered with the single buffered
−32601 body whose data lists all registered tool names; a name resolving
an inherited Object.prototype member instead slips past the guard and is
answered −32603 with no data (the TypeError of reading .parse of the
member\x27s undefined schema); a null params throws while destructuring
and is answered −32603 with no data, the id collapsing to null when
falsy.  In every case no handler is invoked. -/
theorem claim_c2_unknown_tool_amended (env : Env) (req : HttpRequest) (freshId : String)
    (hrpc : isJsonRpc2 req.jsonrpc = true)
    (hm : req.method = some "tools/call") :
    (isNullJson (req.params.getD (.obj [])) = false →
     toolAccess (jGet (req.params.getD (.obj [])) "name") = .miss →
       handlePost env req freshId =
         [.jsonBody 404
           { id := req.id, result := none
             error := some
               { code := -32601
                 message := "Tool \x27" ++
                   jsTemplate (jGet (req.params.getD (.obj [])) "name") ++
                   "\x27 not found"
                 data := some availableToolsData } }] ∧
       ∀ e ∈ handlePost env req freshId, e.isInvoke = false) ∧
    (∀ k, isNullJson (req.params.getD (.obj [])) = false →
     toolAccess (jGet (req.params.getD (.obj [])) "name") = .inheritedMember k →
       handlePost env req freshId =
         [.jsonBody 500
           { id := req.id, result := none
             error := some
               { code := -32603, message := cannotReadParseMessage
                 data := none } }] ∧
       ∀ e ∈ handlePost env req freshId, e.isInvoke = false) ∧
    (isNullJson (req.params.getD (.obj [])) = true →
       handlePost env req freshId =
         [.jsonBody 500
           { id := some (jsOrNull req.id), result := none
             error := some
               { code := -32603, message := cannotDestructureNameMessage
                 data := none } }] ∧
       ∀ e ∈ handlePost env req freshId, e.isInvoke = false) := by
  have hss : shouldStream req.method req.userAgent = false := by
    rw [hm]
    exact shouldStream_eq_false_of _ _ rfl rfl
  have hbase : handlePost env req freshId =
      toolsCallCase env (req.params.getD (.obj [])) req.id false := by
    rw [handlePost_nostream env req freshId hrpc hss,
        dispatch_toolsCall env req _ false hm]
  refine ⟨?_, ?_, ?_⟩
  · intro hnn hmiss
    have hfull : handlePost env req freshId =
        [.jsonBody 404
          { id := req.id, result := none
            error := some
              { code := -32601
                message := "Tool \x27" ++
                  jsTemplate (jGet (req.params.getD (.obj [])) "name") ++
                  "\x27 not found"
                data := some availableToolsData } }] := by
      rw [hbase]
      unfold toolsCallCase
      rw [if_neg (by simp [hnn])]
      dsimp only
      rw [hmiss]
      rfl
    refine ⟨hfull, ?_⟩
    intro e he
    rw [hfull] at he
    simp only [List.mem_singleton] at he
    subst he
    rfl
  · intro k hnn hinh
    have hfull : handlePost env req freshId =
        [.jsonBody 500
          { id := req.id, result := none
            error := some
              { code := -32603, message := cannotReadParseMessage
                data := none } }] := by
      rw [hbase]
      unfold toolsCallCase
      rw [if_neg (by simp [hnn])]
      dsimp only
      rw [hinh]
      rfl
    refine ⟨hfull, ?_⟩
    intro e he
    rw [hfull] at he
    simp only [List.mem_singleton] at he
    subst he
    rfl
  · intro hnull
    have hfull : handlePost env req freshId =
        [.jsonBody 500
          { id := some (jsOrNull req.id), result := none
            error := some
              { code := -32603, message := cannotDestructureNameMessage
                data := none } }] := by
      rw [hbase]
      unfold toolsCallCase
      rw [if_pos hnull]
      rfl
    refine ⟨hfull, ?_⟩
    intro e he
    rw [hfull] at he
    simp only [List.mem_singleton] at he
    subst he
    rfl

/-- Claim C4: for every tools/call request, the streaming branch and the
buffered branch of the tools/call arm produce the same terminal JSON-RPC
payload on every path — unknown tool, validation failure, handler success
and handler exception; the two delivery modes differ only in framing. -/
theorem claim_c4_mode_equivalence (env : Env) (params : Json) (id : Option Json) :
    terminalPayload (toolsCallCase env params id true) =
      terminalPayload (toolsCallCase env params id false) := by
  unfold toolsCallCase
  dsimp only
  split
  · rfl
  split
  · rfl
  · rfl
  split
  · rfl
  rename_i toolName toolDef h1 x2 validatedArgs h2
  cases env.toolOutcome toolName validatedArgs <;> rfl

/-- A concrete environment for witnesses: every handler resolves, the
resource and prompt collaborators answer without throwing. -/
def witEnv : Env :=
  { version := "0.6.0"
    developmentMode := false
    toolOutcome := fun _ _ => .ok (.str "ok")
    listResourcesE := .ok []
    resourceCategories := .obj []
    getResourceE := fun _ => .ok none
    collab := { findDocTypes := fun _ => .ok [], getModuleList := .ok [] } }

/-- A tools/call request for check_doctype_exists with empty arguments
(missing the required doctype key). -/
def reqC1 : HttpRequest :=
  { jsonrpc := some (.str "2.0"), id := some (.num 1), method := some "tools/call"
    params := some (.obj [("name", .str "check_doctype_exists"),
                          ("arguments", .obj [])])
    userAgent := none, accept := none, session := none }

/-- Claim C1 witness: the hypotheses are satisfiable — a concrete request
for a known tool with schema-violating arguments takes the −32602 path
with the violation list as data and no handler invocation. -/
theorem claim_c1_schema_rejection_witness :
    handlePost witEnv reqC1 "s" =
      [.jsonBody 500
        { id := some (.num 1), result := none
          error := some
            { code := -32602
              message := zodErrorMessage [ZodIssue.mk ["doctype"] "Required"]
              data := some (issuesJson [ZodIssue.mk ["doctype"] "Required"]) } }] ∧
    ∀ e ∈ handlePost witEnv reqC1 "s", e.isInvoke = false :=
  claim_c1_schema_rejection witEnv reqC1 "s" "check_doctype_exists"
    { description := "Check if a DocType exists in the system"
      schema := .object (zshape [("doctype", .string)]) }
    [ZodIssue.mk ["doctype"] "Required"] rfl rfl rfl rfl

/-- A tools/call request naming a tool outside the registry (and outside
the members Object.prototype provides). -/
def reqC2 : HttpRequest :=
  { jsonrpc := some (.str "2.0"), id := some (.num 2), method := some "tools/call"
    params := some (.obj [("name", .str "does_not_exist")])
    userAgent := none, accept := none, session := none }

/-- A tools/call request naming toString, a member the registry object
inherits from Object.prototype rather than an own registry entry. -/
def reqC2proto : HttpRequest :=
  { jsonrpc := some (.str "2.0"), id := some (.num 12), method := some "tools/call"
    params := some (.obj [("name", .str "toString")])
    userAgent := none, accept := none, session := none }

/-- A tools/call request whose params is the JSON null value. -/
def reqC2null : HttpRequest :=
  { jsonrpc := some (.str "2.0"), id := some (.num 13), method := some "tools/call"
    params := some .null
    userAgent := none, accept := none, session := none }

/-- Claim C2 counterexample: the name toString matches no registry entry,
yet the request is answered −32603 with no data field — not −32601 with
the registry name set — because tools[toolName] resolves the toString
member the registry object literal inherits from Object.prototype, and
reading .parse of its undefined schema throws a TypeError. -/
theorem claim_c2_counterexample :
    lookupTool "toString" = none ∧
    handlePost witEnv reqC2proto "s" =
      [.jsonBody 500
        { id := some (.num 12), result := none
          error := some
            { code := -32603, message := cannotReadParseMessage
              data := none } }] ∧
    errorCodes (handlePost witEnv reqC2proto "s") = [-32603] ∧
    ((-32603 : Int) = -32601 → False) :=
  ⟨rfl, rfl, rfl, by decide⟩

/-- Claim C2 amended witness: all three arms are satisfiable — a concrete
unmatched ordinary name takes the −32601 path carrying the registry name
set, the inherited name toString the −32603 TypeError path, and a null
params the −32603 destructuring path; none invokes a handler. -/
theorem claim_c2_unknown_tool_amended_witness :
    (handlePost witEnv reqC2 "s" =
      [.jsonBody 404
        { id := some (.num 2), result := none
          error := some
            { code := -32601
              message := "Tool \x27" ++
                jsTemplate (jGet ((reqC2.params).getD (.obj [])) "name") ++
                "\x27 not found"
              data := some availableToolsData } }] ∧
     ∀ e ∈ handlePost witEnv reqC2 "s", e.isInvoke = false) ∧
    (handlePost witEnv reqC2proto "s" =
      [.jsonBody 500
        { id := some (.num 12), result := none
          error := some
            { code := -32603, message := cannotReadParseMessage
              data := none } }] ∧
     ∀ e ∈ handlePost witEnv reqC2proto "s", e.isInvoke = false) ∧
    (handlePost witEnv reqC2null "s" =
      [.jsonBody 500
        { id := some (.num 13), result := none
          error := some
            { code := -32603, message := cannotDestructureNameMessage
              data := none } }] ∧
     ∀ e ∈ handlePost witEnv reqC2null "s", e.isInvoke = false) :=
  ⟨(claim_c2_unknown_tool_amended witEnv reqC2 "s" rfl rfl).1 rfl rfl,
   (claim_c2_unknown_tool_amended witEnv reqC2proto "s" rfl rfl).2.1 "toString" rfl rfl,
   (claim_c2_unknown_tool_amended witEnv reqC2null "s" rfl rfl).2.2 rfl⟩

/-- Tallying a status adds exactly one to the per-status sum, whether the
key is new or existing. -/
theorem sum_bumpStatus (l : List (Nat × Nat)) (k : Nat) :
    ((bumpStatus l k).map (fun e => e.2)).sum = (l.map (fun e => e.2)).sum + 1 := by
  induction l with
  | nil => rfl
  | cons e rest ih =>
      unfold bumpStatus
      split
      · simp only [List.map_cons, List.sum_cons]
        omega
      · simp only [List.map_cons, List.sum_cons, ih]
        omega

/-- One recorded response adds exactly one to the per-status sum and
exactly one to the success/error split. -/
theorem recordResponse_counts (m : Metrics) (status : Nat) (toolName : Option String) :
    sumByStatus (recordResponseMetrics m status toolName) = sumByStatus m + 1 ∧
    (recordResponseMetrics m status toolName).success +
      (recordResponseMetrics m status toolName).error = m.success + m.error + 1 := by
  unfold recordResponseMetrics
  dsimp only
  by_cases hs : 200 ≤ status ∧ status < 300 <;>
    cases toolName <;>
      simp [hs, sumByStatus, sum_bumpStatus] <;> omega

/-- The conservation invariant as a generalized induction: without the
error-middleware event, every event sequence advances the per-status sum
and the success/error split by exactly its recorded-request count. -/
theorem runMetrics_invariant (es : List MetricsEvent) (m : Metrics)
    (hnoerr : ∀ e ∈ es, e ≠ MetricsEvent.errorMw) :
    sumByStatus (runMetrics m es) = sumByStatus m + recordedCount es ∧
    (runMetrics m es).success + (runMetrics m es).error =
      m.success + m.error + recordedCount es := by
  induction es generalizing m with
  | nil => simp [runMetrics, recordedCount]
  | cons e rest ih =>
      have hrest := ih (applyMetricsEvent m e)
        (fun x hx => hnoerr x (List.mem_cons_of_mem _ hx))
      have hstep : runMetrics m (e :: rest) = runMetrics (applyMetricsEvent m e) rest := rfl
      cases e with
      | jsonResponse status toolName =>
          have hrc := recordResponse_counts m status toolName
          rw [hstep]
          have hcount : recordedCount (.jsonResponse status toolName :: rest) =
              recordedCount rest + 1 := by
            simp [recordedCount, List.countP_cons]
          rw [hcount]
          constructor
          · rw [hrest.1]
            show sumByStatus (recordResponseMetrics m status toolName) + recordedCount rest = _
            rw [hrc.1]
            omega
          · rw [hrest.2]
            show (recordResponseMetrics m status toolName).success +
              (recordResponseMetrics m status toolName).error + recordedCount rest = _
            rw [hrc.2]
            omega
      | endWithoutJson =>
          rw [hstep]
          have hcount : recordedCount (.endWithoutJson :: rest) = recordedCount rest := by
            simp [recordedCount, List.countP_cons]
          rw [hcount]
          exact hrest
      | errorMw =>
          exact absurd rfl (hnoerr _ (List.mem_cons_self _ _))

/-- Claim C5 counterexample: the claim fails as stated.  A request that
reaches errorHandlingMiddleware before metricsMiddleware has patched
res.json (a malformed JSON body makes express.json throw there) bumps the
error counter while recording no status, so after that one event the
success + error total is 1 although zero requests had their status
recorded. -/
theorem claim_c5_counterexample :
    (runMetrics initialMetrics [MetricsEvent.errorMw]).success +
      (runMetrics initialMetrics [MetricsEvent.errorMw]).error = 1 ∧
    recordedCount [MetricsEvent.errorMw] = 0 ∧
    sumByStatus (runMetrics initialMetrics [MetricsEvent.errorMw]) = 0 :=
  ⟨rfl, rfl, rfl⟩

/-- Claim C5 (amended): for every event sequence that never passes through
errorHandlingMiddleware, after K requests with recorded status codes the
per-status sum equals K and success + error equals K; requests completing
without a res.json call (204 and SSE completions) record nothing and
leave the invariant intact. -/
theorem claim_c5_metrics_conservation (es : List MetricsEvent)
    (hnoerr : ∀ e ∈ es, e ≠ MetricsEvent.errorMw) :
    sumByStatus (runMetrics initialMetrics es) = recordedCount es ∧
    (runMetrics initialMetrics es).success +
      (runMetrics initialMetrics es).error = recordedCount es := by
  have h := runMetrics_invariant es initialMetrics hnoerr
  simpa [initialMetrics, sumByStatus] using h

/-- Claim C5 witness: a concrete sequence of two recorded responses and one
json-less completion satisfies the hypothesis and both conservation
equations with K = 2. -/
theorem claim_c5_metrics_conservation_witness :
    sumByStatus (runMetrics initialMetrics
      [MetricsEvent.jsonResponse 200 (some "ping"), MetricsEvent.endWithoutJson,
       MetricsEvent.jsonResponse 500 none]) = 2 ∧
    (runMetrics initialMetrics
      [MetricsEvent.jsonResponse 200 (some "ping"), MetricsEvent.endWithoutJson,
       MetricsEvent.jsonResponse 500 none]).success +
    (runMetrics initialMetrics
      [MetricsEvent.jsonResponse 200 (some "ping"), MetricsEvent.endWithoutJson,
       MetricsEvent.jsonResponse 500 none]).error = 2 :=
  claim_c5_metrics_conservation
    [MetricsEvent.jsonResponse 200 (some "ping"), MetricsEvent.endWithoutJson,
     MetricsEvent.jsonResponse 500 none] (by decide)

/-- A key bound nowhere in the map resolves to nothing. -/
theorem sessionGet_eq_none (l : SessionMap) (sid : String)
    (h : ∀ e ∈ l, e.1 ≠ sid) : sessionGet l sid = none := by
  have hfind : l.find? (fun e => e.1 = sid) = none := by
    rw [List.find?_eq_none]
    intro a ha
    simp [h a ha]
  simp [sessionGet, hfind]

/-- The sweep on a non-empty map keeps or drops the head by its own gap. -/
theorem sweep_cons (now : Int) (e : String × Int) (l : SessionMap) :
    (sessionSweep now (e :: l)).1 =
      if now - e.2 ≤ SESSION_TIMEOUT then e :: (sessionSweep now l).1
      else (sessionSweep now l).1 := by
  by_cases h : now - e.2 ≤ SESSION_TIMEOUT
  · simp only [sessionSweep, List.filter_cons, decide_eq_true_eq, if_pos h]
  · simp only [sessionSweep, List.filter_cons, decide_eq_true_eq, if_neg h]

/-- Lookup at the head key. -/
theorem sessionGet_cons_pos (l : SessionMap) (sid : String) (v : Int) :
    sessionGet ((sid, v) :: l) sid = some v := by
  unfold sessionGet
  rw [List.find?_cons_of_pos]
  · rfl
  · simp

/-- Lookup skips a head with a different key. -/
theorem sessionGet_cons_neg (l : SessionMap) (k sid : String) (v : Int)
    (h : ¬ k = sid) : sessionGet ((k, v) :: l) sid = sessionGet l sid := by
  unfold sessionGet
  rw [List.find?_cons_of_neg]
  simp [h]

/-- The touch rewrites the head independently of the tail. -/
theorem touch_cons (k : String) (v : Int) (sid : String) (t2 : Int) (l : SessionMap) :
    touchSession ((k, v) :: l) sid t2 =
      (if k = sid then (k, t2) else (k, v)) :: touchSession l sid t2 := by
  simp only [touchSession, List.map_cons]

/-- Claim C6: a sweep tick at time now never removes a session whose
inactivity gap is at most the timeout, removes every session whose gap
strictly exceeds it, and reads the current lastActivity at sweep time: a
session touched to a recent time immediately before the sweep survives it
with that time. -/
theorem claim_c6_session_sweep (sessions : SessionMap) (sid : String) (t now : Int)
    (hnodup : (sessions.map Prod.fst).Nodup)
    (hfound : sessionGet sessions sid = some t) :
    (now - t ≤ SESSION_TIMEOUT →
      sessionGet (sessionSweep now sessions).1 sid = some t) ∧
    (now - t > SESSION_TIMEOUT →
      sessionGet (sessionSweep now sessions).1 sid = none) ∧
    (∀ t2, now - t2 ≤ SESSION_TIMEOUT →
      sessionGet (sessionSweep now (touchSession sessions sid t2)).1 sid = some t2) := by
  induction sessions with
  | nil => simp [sessionGet] at hfound
  | cons e rest ih =>
      obtain ⟨k, v⟩ := e
      rw [List.map_cons, List.nodup_cons] at hnodup
      by_cases hk : k = sid
      · subst hk
        have hv : v = t := by
          have := sessionGet_cons_pos rest k v
          rw [this] at hfound
          exact Option.some_inj.mp hfound
        subst hv
        have hrest_no : ∀ x ∈ rest, x.1 ≠ k := by
          intro x hx heq
          exact hnodup.1 (List.mem_map.mpr ⟨x, hx, heq⟩)
        refine ⟨?_, ?_, ?_⟩
        · intro hle
          rw [sweep_cons, if_pos hle, sessionGet_cons_pos]
        · intro hgt
          rw [sweep_cons, if_neg (by omega)]
          exact sessionGet_eq_none _ _
            (fun x hx => hrest_no x (List.mem_of_mem_filter hx))
        · intro t2 hle2
          rw [touch_cons, if_pos rfl, sweep_cons]
          rw [if_pos (by simpa using hle2), sessionGet_cons_pos]
      · have hfound2 : sessionGet rest sid = some t := by
          rw [sessionGet_cons_neg rest k sid v hk] at hfound
          exact hfound
        have ihr := ih hnodup.2 hfound2
        refine ⟨?_, ?_, ?_⟩
        · intro hle
          rw [sweep_cons]
          by_cases hpv : now - v ≤ SESSION_TIMEOUT
          · rw [if_pos hpv, sessionGet_cons_neg _ _ _ _ hk]
            exact ihr.1 hle
          · rw [if_neg hpv]
            exact ihr.1 hle
        · intro hgt
          rw [sweep_cons]
          by_cases hpv : now - v ≤ SESSION_TIMEOUT
          · rw [if_pos hpv, sessionGet_cons_neg _ _ _ _ hk]
            exact ihr.2.1 hgt
          · rw [if_neg hpv]
            exact ihr.2.1 hgt
        · intro t2 hle2
          rw [touch_cons, if_neg hk, sweep_cons]
          by_cases hpv : now - v ≤ SESSION_TIMEOUT
          · rw [if_pos hpv, sessionGet_cons_neg _ _ _ _ hk]
            exact ihr.2.2 t2 hle2
          · rw [if_neg hpv]
            exact ihr.2.2 t2 hle2

/-- Claim C6 witness: the hypotheses are satisfiable — a three-session map
with one session exactly at the boundary, one just past it, and a sweep
after a touch. -/
theorem claim_c6_session_sweep_witness :
    (((1800000 : Int) - 0 ≤ SESSION_TIMEOUT →
      sessionGet (sessionSweep 1800000 [("a", 0), ("b", 5)]).1 "a" = some 0) ∧
     ((1800000 : Int) - 0 > SESSION_TIMEOUT →
      sessionGet (sessionSweep 1800000 [("a", 0), ("b", 5)]).1 "a" = none) ∧
     (∀ t2, (1800000 : Int) - t2 ≤ SESSION_TIMEOUT →
      sessionGet (sessionSweep 1800000
        (touchSession [("a", 0), ("b", 5)] "a" t2)).1 "a" = some t2)) ∧
    (((1800001 : Int) - 0 ≤ SESSION_TIMEOUT →
      sessionGet (sessionSweep 1800001 [("a", 0), ("b", 5)]).1 "a" = some 0) ∧
     ((1800001 : Int) - 0 > SESSION_TIMEOUT →
      sessionGet (sessionSweep 1800001 [("a", 0), ("b", 5)]).1 "a" = none) ∧
     (∀ t2, (1800001 : Int) - t2 ≤ SESSION_TIMEOUT →
      sessionGet (sessionSweep 1800001
        (touchSession [("a", 0), ("b", 5)] "a" t2)).1 "a" = some t2)) :=
  ⟨claim_c6_session_sweep [("a", 0), ("b", 5)] "a" 0 1800000 (by decide) rfl,
   claim_c6_session_sweep [("a", 0), ("b", 5)] "a" 0 1800001 (by decide) rfl⟩

/-- Store lookup immediately after an update finds the new entry. -/
theorem storeGet_storeSet (store : RateLimitStore) (c : String) (e : RateLimitEntry) :
    storeGet (storeSet store c e) c = some e := by
  unfold storeGet storeSet
  rw [List.find?_cons_of_pos]
  · rfl
  · simp

/-- One middleware step for a client with no entry: the request passes and
the entry becomes count 1 with a fresh window. -/
theorem rl_step_fresh (store : RateLimitStore) (c : String) (id : Option Json)
    (now : Int) (hget : storeGet store c = none) :
    rateLimitMiddleware true store c id now =
      (.pass RATE_LIMIT_MAX_REQUESTS (max 0 (RATE_LIMIT_MAX_REQUESTS - 1))
        (jsCeilDiv1000 (now + RATE_LIMIT_WINDOW)),
       storeSet store c ⟨1, now + RATE_LIMIT_WINDOW⟩) := by
  unfold rateLimitMiddleware
  rw [if_neg (by simp)]
  dsimp only
  rw [hget]
  dsimp only
  rw [if_neg (by decide)]
  rfl

/-- One middleware step for a client whose window has elapsed: the entry is
reset, the request passes, and the counter is 1 afterwards. -/
theorem rl_step_reset (store : RateLimitStore) (c : String) (id : Option Json)
    (now : Int) (e : RateLimitEntry) (hget : storeGet store c = some e)
    (hexp : now > e.resetTime) :
    rateLimitMiddleware true store c id now =
      (.pass RATE_LIMIT_MAX_REQUESTS (max 0 (RATE_LIMIT_MAX_REQUESTS - 1))
        (jsCeilDiv1000 (now + RATE_LIMIT_WINDOW)),
       storeSet store c ⟨1, now + RATE_LIMIT_WINDOW⟩) := by
  unfold rateLimitMiddleware
  rw [if_neg (by simp)]
  dsimp only
  rw [hget]
  dsimp only
  rw [if_pos hexp]
  rw [if_neg (by norm_num [RATE_LIMIT_MAX_REQUESTS])]
  rfl

/-- One middleware step inside the window below the ceiling: the request
passes and the count advances by one. -/
theorem rl_step_pass (store : RateLimitStore) (c : String) (id : Option Json)
    (now k R : Int) (hget : storeGet store c = some ⟨k, R⟩)
    (hin : ¬ now > R) (hcap : ¬ k + 1 > RATE_LIMIT_MAX_REQUESTS) :
    rateLimitMiddleware true store c id now =
      (.pass RATE_LIMIT_MAX_REQUESTS (max 0 (RATE_LIMIT_MAX_REQUESTS - (k + 1)))
        (jsCeilDiv1000 R),
       storeSet store c ⟨k + 1, R⟩) := by
  unfold rateLimitMiddleware
  rw [if_neg (by simp)]
  dsimp only
  rw [hget]
  dsimp only
  rw [if_neg hin]
  rw [if_neg (by dsimp only; exact hcap)]

/-- One middleware step inside the window at the ceiling: the request is
rejected with the seconds left in the window, rounded up. -/
theorem rl_step_reject (store : RateLimitStore) (c : String) (id : Option Json)
    (now k R : Int) (hget : storeGet store c = some ⟨k, R⟩)
    (hin : ¬ now > R) (hcap : k + 1 > RATE_LIMIT_MAX_REQUESTS) :
    rateLimitMiddleware true store c id now =
      (rateLimitReject id (jsCeilDiv1000 (R - now)),
       storeSet store c ⟨k + 1, R⟩) := by
  unfold rateLimitMiddleware
  rw [if_neg (by simp)]
  dsimp only
  rw [hget]
  dsimp only
  rw [if_neg hin]
  rw [if_pos (by dsimp only; exact hcap)]

/-- Runs split over list append. -/
theorem runRateLimit_append (c : String) (id : Option Json) :
    ∀ (xs ys : List Int) (store : RateLimitStore),
    runRateLimit store c id (xs ++ ys) =
      ((runRateLimit store c id xs).1 ++
         (runRateLimit (runRateLimit store c id xs).2 c id ys).1,
       (runRateLimit (runRateLimit store c id xs).2 c id ys).2) := by
  intro xs
  induction xs with
  | nil => intro ys store; rfl
  | cons x xs ih =>
      intro ys store
      simp only [List.cons_append, runRateLimit, List.append_eq, ih]

/-- A run produces one outcome per request. -/
theorem runRateLimit_length (c : String) (id : Option Json) :
    ∀ (ts : List Int) (store : RateLimitStore),
    (runRateLimit store c id ts).1.length = ts.length := by
  intro ts
  induction ts with
  | nil => intro store; rfl
  | cons t ts ih => intro store; simp only [runRateLimit, List.length_cons, ih]

/-- Requests inside the ceiling all pass and count up by one each: the
window invariant of the sliding counter. -/
theorem runRateLimit_all_pass (c : String) (id : Option Json) (R : Int) :
    ∀ (ts : List Int) (store : RateLimitStore) (k : Int),
    storeGet store c = some ⟨k, R⟩ →
    (∀ t ∈ ts, t ≤ R) →
    k + ts.length ≤ RATE_LIMIT_MAX_REQUESTS →
    (runRateLimit store c id ts).1.all RateLimitOutcome.isPass = true ∧
    storeGet (runRateLimit store c id ts).2 c = some ⟨k + ts.length, R⟩ := by
  intro ts
  induction ts with
  | nil =>
      intro store k hget _ _
      refine ⟨rfl, ?_⟩
      simpa using hget
  | cons t ts ih =>
      intro store k hget hin hcap
      have hstep := rl_step_pass store c id t k R hget
        (by have := hin t (List.mem_cons_self ..); omega)
        (by simp only [List.length_cons] at hcap; push_cast at hcap ⊢; omega)
      have hrest := ih (storeSet store c ⟨k + 1, R⟩) (k + 1)
        (storeGet_storeSet ..)
        (fun x hx => hin x (List.mem_cons_of_mem _ hx))
        (by simp only [List.length_cons] at hcap; push_cast at hcap ⊢; omega)
      simp only [runRateLimit, hstep, List.all_cons]
      refine ⟨?_, ?_⟩
      · rw [hrest.1]
        rfl
      · rw [hrest.2]
        simp only [List.length_cons]
        push_cast
        ring_nf

/-- Claim C7: with rate limiting active (production mode, ceiling 100 per
60-second window), the first 100 requests of a client inside one window
pass and the 101st is rejected with the −32000 response whose retryAfter
is between 0 and 60 seconds; and any request arriving after the window
has elapsed passes with the client's counter reset to exactly 1. -/
theorem claim_c7_rate_limit_boundary :
    (∀ (c : String) (id : Option Json) (t1 tLast : Int) (ts : List Int),
      ts.length = 99 →
      (∀ t ∈ ts, t ≤ t1 + RATE_LIMIT_WINDOW) →
      t1 ≤ tLast → tLast ≤ t1 + RATE_LIMIT_WINDOW →
      ((runRateLimit [] c id (t1 :: (ts ++ [tLast]))).1.take 100).all
          RateLimitOutcome.isPass = true ∧
      ∃ retryAfter, 0 ≤ retryAfter ∧ retryAfter ≤ 60 ∧
        (runRateLimit [] c id (t1 :: (ts ++ [tLast]))).1.getLast? =
          some (rateLimitReject id retryAfter)) ∧
    (∀ (store : RateLimitStore) (c : String) (id : Option Json) (now : Int)
        (e : RateLimitEntry),
      storeGet store c = some e → now > e.resetTime →
      rateLimitMiddleware true store c id now =
        (.pass RATE_LIMIT_MAX_REQUESTS (max 0 (RATE_LIMIT_MAX_REQUESTS - 1))
          (jsCeilDiv1000 (now + RATE_LIMIT_WINDOW)),
         storeSet store c ⟨1, now + RATE_LIMIT_WINDOW⟩) ∧
      storeGet (rateLimitMiddleware true store c id now).2 c =
        some ⟨1, now + RATE_LIMIT_WINDOW⟩) := by
  constructor
  · intro c id t1 tLast ts hlen hin hl1 hl2
    have hfresh := rl_step_fresh [] c id t1 rfl
    have hmid := runRateLimit_all_pass c id (t1 + RATE_LIMIT_WINDOW) ts
      (storeSet [] c ⟨1, t1 + RATE_LIMIT_WINDOW⟩) 1
      (storeGet_storeSet ..) hin
      (by rw [hlen]; decide)
    have hlast := rl_step_reject
      (runRateLimit (storeSet [] c ⟨1, t1 + RATE_LIMIT_WINDOW⟩) c id ts).2 c id
      tLast (1 + ts.length) (t1 + RATE_LIMIT_WINDOW) hmid.2
      (by omega)
      (by rw [hlen]; decide)
    have hshape : runRateLimit [] c id (t1 :: (ts ++ [tLast])) =
        ((.pass RATE_LIMIT_MAX_REQUESTS (max 0 (RATE_LIMIT_MAX_REQUESTS - 1))
            (jsCeilDiv1000 (t1 + RATE_LIMIT_WINDOW))) ::
          ((runRateLimit (storeSet [] c ⟨1, t1 + RATE_LIMIT_WINDOW⟩) c id ts).1 ++
           [rateLimitReject id (jsCeilDiv1000 (t1 + RATE_LIMIT_WINDOW - tLast))]),
         storeSet (runRateLimit (storeSet [] c ⟨1, t1 + RATE_LIMIT_WINDOW⟩) c id ts).2
           c ⟨1 + ts.length + 1, t1 + RATE_LIMIT_WINDOW⟩) := by
      simp only [runRateLimit, hfresh, runRateLimit_append, hlast]
    constructor
    · rw [hshape]
      have hmlen : (runRateLimit (storeSet [] c ⟨1, t1 + RATE_LIMIT_WINDOW⟩) c id ts).1.length = 99 := by
        rw [runRateLimit_length, hlen]
      rw [show (100 : Nat) = 99 + 1 from rfl, List.take_succ_cons]
      rw [List.take_append_of_le_length (by rw [hmlen])]
      rw [List.take_of_length_le (by rw [hmlen])]
      simp only [List.all_cons, hmid.1, Bool.and_true]
      rfl
    · refine ⟨jsCeilDiv1000 (t1 + RATE_LIMIT_WINDOW - tLast), ?_, ?_, ?_⟩
      · unfold jsCeilDiv1000
        apply Int.ediv_nonneg
        · unfold RATE_LIMIT_WINDOW at hl2 ⊢
          omega
        · decide
      · unfold jsCeilDiv1000
        calc (t1 + RATE_LIMIT_WINDOW - tLast + 999).ediv 1000
            ≤ (60999 : Int).ediv 1000 :=
              Int.ediv_le_ediv (by decide) (by unfold RATE_LIMIT_WINDOW; omega)
          _ = 60 := by decide
      · rw [hshape]
        rw [← List.cons_append, List.getLast?_concat]
  · intro store c id now e hget hexp
    have hstep := rl_step_reset store c id now e hget hexp
    refine ⟨hstep, ?_⟩
    rw [hstep]
    exact storeGet_storeSet ..

/-- Claim C7 witness: the hypotheses are satisfiable — 100 requests at time
0 from one client all pass, a 101st at 30 seconds is rejected with a
retryAfter of at most 60 seconds, and a request long after an entry's
window has elapsed passes with the counter back at 1. -/
theorem claim_c7_rate_limit_boundary_witness :
    (((runRateLimit [] "1.2.3.4" none
        ((0 : Int) :: (List.replicate 99 (0 : Int) ++ [30000]))).1.take 100).all
        RateLimitOutcome.isPass = true ∧
     (∃ retryAfter, 0 ≤ retryAfter ∧ retryAfter ≤ 60 ∧
       (runRateLimit [] "1.2.3.4" none
         ((0 : Int) :: (List.replicate 99 (0 : Int) ++ [30000]))).1.getLast? =
         some (rateLimitReject none retryAfter)) ) ∧
    (rateLimitMiddleware true [("1.2.3.4", ⟨5, 100⟩)] "1.2.3.4" none 200000 =
      (.pass RATE_LIMIT_MAX_REQUESTS (max 0 (RATE_LIMIT_MAX_REQUESTS - 1))
        (jsCeilDiv1000 (200000 + RATE_LIMIT_WINDOW)),
       storeSet [("1.2.3.4", ⟨5, 100⟩)] "1.2.3.4" ⟨1, 200000 + RATE_LIMIT_WINDOW⟩) ∧
     storeGet (rateLimitMiddleware true [("1.2.3.4", ⟨5, 100⟩)] "1.2.3.4" none
       200000).2 "1.2.3.4" = some ⟨1, 200000 + RATE_LIMIT_WINDOW⟩) :=
  ⟨claim_c7_rate_limit_boundary.1 "1.2.3.4" none 0 30000 (List.replicate 99 0)
    (by decide)
    (by
      intro t ht
      rw [List.eq_of_mem_replicate ht]
      decide)
    (by decide) (by decide),
   claim_c7_rate_limit_boundary.2 [("1.2.3.4", ⟨5, 100⟩)] "1.2.3.4" none 200000
     ⟨5, 100⟩ rfl (by decide)⟩

/-- Under a prompts/get method the switch reduces to the prompts/get arm. -/
theorem dispatch_promptsGet (env : Env) (req : HttpRequest) (session : Option String)
    (streaming : Bool) (hm : req.method = some "prompts/get") :
    dispatchMethod env req session streaming =
      promptsGetCase env (req.params.getD (.obj [])) req.id streaming := by
  unfold dispatchMethod
  dsimp only
  rw [hm]
  rw [if_neg (by decide), if_neg (by decide), if_neg (by decide),
      if_neg (by decide), if_neg (by decide), if_neg (by decide), if_pos rfl]

/-- Claim C8 counterexample: the claim fails as stated.  For the known
prompt analyze_doctype whose collaborator (findDocTypes) throws, getPrompt
swallows the exception and returns null, so the dispatcher answers with
−32601 (not-found) — not with the internal error −32603 the claim
requires. -/
theorem claim_c8_counterexample :
    getPromptCore
        { findDocTypes := fun _ => .error "boom", getModuleList := .ok [] }
        (.str "analyze_doctype") (.obj [("doctype_name", .str "Customer")]) =
      .error "boom" ∧
    errorCodes (handlePost
      { version := "0.6.0", developmentMode := false
        toolOutcome := fun _ _ => .ok (.str "ok")
        listResourcesE := .ok [], resourceCategories := .obj []
        getResourceE := fun _ => .ok none
        collab := { findDocTypes := fun _ => .error "boom", getModuleList := .ok [] } }
      { jsonrpc := some (.str "2.0"), id := some (.num 4)
        method := some "prompts/get"
        params := some (.obj [("name", .str "analyze_doctype"),
                              ("arguments", .obj [("doctype_name", .str "Customer")])])
        userAgent := none, accept := none, session := none } "s") = [-32601] ∧
    ((-32601 : Int) = -32603 → False) :=
  ⟨rfl, rfl, by decide⟩

/-- Claim C8 (amended): for every prompts/get request with a truthy name,
both a name outside the prompt catalog and a collaborator exception inside
a known prompt's generator are answered with not-found (−32601): getPrompt
catches the exception and returns null, so the internal-error arm (−32603)
of the dispatcher is unreachable for prompts/get. -/
theorem claim_c8_prompt_failures_not_found (env : Env) (req : HttpRequest)
    (freshId : String) (e : String)
    (hrpc : isJsonRpc2 req.jsonrpc = true)
    (hm : req.method = some "prompts/get")
    (hname : jsTruthyOpt (jGet (req.params.getD (.obj [])) "name") = true)
    (hfail :
      getPromptCore env.collab ((jGet (req.params.getD (.obj [])) "name").getD .null)
        ((jGet (req.params.getD (.obj [])) "arguments").getD (.obj [])) = .error e ∨
      getPromptCore env.collab ((jGet (req.params.getD (.obj [])) "name").getD .null)
        ((jGet (req.params.getD (.obj [])) "arguments").getD (.obj [])) = .ok none) :
    handlePost env req freshId =
      [.jsonBody 404
        { id := req.id, result := none
          error := some
            { code := -32601
              message := "Prompt not found: " ++
                jsTemplate (jGet (req.params.getD (.obj [])) "name")
              data := none } }] := by
  have hgp : getPrompt env.collab
      ((jGet (req.params.getD (.obj [])) "name").getD .null)
      ((jGet (req.params.getD (.obj [])) "arguments").getD (.obj [])) = none := by
    unfold getPrompt
    rcases hfail with h | h <;> rw [h]
  have hss : shouldStream req.method req.userAgent = false := by
    rw [hm]
    exact shouldStream_eq_false_of _ _ rfl rfl
  rw [handlePost_nostream env req freshId hrpc hss,
      dispatch_promptsGet env req _ false hm]
  unfold promptsGetCase
  dsimp only
  rw [if_neg (by simp [hname]), hgp]
  rfl

/-- A collaborator environment whose findDocTypes throws. -/
def throwingCollab : CollabEnv :=
  { findDocTypes := fun _ => .error "boom", getModuleList := .ok [] }

/-- An environment whose prompt collaborators throw. -/
def envC8 : Env :=
  { version := "0.6.0", developmentMode := false
    toolOutcome := fun _ _ => .ok (.str "ok")
    listResourcesE := .ok [], resourceCategories := .obj []
    getResourceE := fun _ => .ok none
    collab := throwingCollab }

/-- A prompts/get request for the known prompt analyze_doctype. -/
def reqC8 : HttpRequest :=
  { jsonrpc := some (.str "2.0"), id := some (.num 4)
    method := some "prompts/get"
    params := some (.obj [("name", .str "analyze_doctype"),
                          ("arguments", .obj [("doctype_name", .str "Customer")])])
    userAgent := none, accept := none, session := none }

/-- Claim C8 witness: the amended hypotheses are satisfiable at a concrete
request whose collaborator throws, yielding the −32601 body. -/
theorem claim_c8_prompt_failures_not_found_witness :
    handlePost envC8 reqC8 "s" =
      [.jsonBody 404
        { id := some (.num 4), result := none
          error := some
            { code := -32601
              message := "Prompt not found: " ++
                jsTemplate (jGet ((reqC8.params).getD (.obj [])) "name")
              data := none } }] :=
  claim_c8_prompt_failures_not_found envC8 reqC8 "s" "boom" rfl rfl rfl
    (Or.inl rfl)

/-- The required-key collection is exactly the non-optional keys of the
shape, in order. -/
theorem zodShapeRequired_eq : (shape : ZodShape) →
    zodShapeRequired shape =
      (shape.toList.filter (fun kv => ! kv.2.isOptional)).map Prod.fst
  | .nil => rfl
  | .cons k t rest => by
      by_cases h : t.isOptional = true
      · simp [zodShapeRequired, ZodShape.toList, List.filter_cons, h,
              zodShapeRequired_eq rest]
      · simp [zodShapeRequired, ZodShape.toList, List.filter_cons, h,
              zodShapeRequired_eq rest]

/-- Lookup at the head key of a JSON object. -/
theorem jGet_cons_pos (l : List (String × Json)) (k : String) (v : Json) :
    jGet (.obj ((k, v) :: l)) k = some v := by
  unfold jGet
  dsimp only
  rw [List.find?_cons_of_pos]
  · rfl
  · simp

/-- Lookup skips a head field with a different key. -/
theorem jGet_cons_neg (l : List (String × Json)) (k1 k : String) (v : Json)
    (h : ¬ k1 = k) : jGet (.obj ((k1, v) :: l)) k = jGet (.obj l) k := by
  unfold jGet
  dsimp only
  rw [List.find?_cons_of_neg]
  simp [h]

/-- In a duplicate-free shape, the generated properties map an optional
field to the schema of its unwrapped inner type. -/
theorem zodShapeProps_lookup : (shape : ZodShape) → (k : String) → (inner : ZodType) →
    (shape.toList.map Prod.fst).Nodup →
    (k, ZodType.optional inner) ∈ shape.toList →
    jGet (Json.obj (zodShapeProps shape)) k = some (zodToJsonSchema inner)
  | .nil, k, inner, _, hmem => by simp [ZodShape.toList] at hmem
  | .cons key t rest, k, inner, hnodup, hmem => by
      rw [ZodShape.toList] at hmem
      rw [ZodShape.toList, List.map_cons, List.nodup_cons] at hnodup
      rcases List.mem_cons.mp hmem with heq | hmem2
      · have hk : key = k := (congrArg Prod.fst heq).symm
        have ht : t = ZodType.optional inner := (congrArg Prod.snd heq).symm
        subst hk
        subst ht
        rw [show zodShapeProps (.cons key (ZodType.optional inner) rest) =
            (key, zodToJsonSchema (ZodType.optional inner)) :: zodShapeProps rest
            from rfl]
        rw [jGet_cons_pos]
        rfl
      · have hk : ¬ key = k := by
          intro hkk
          exact hnodup.1 (hkk ▸ List.mem_map.mpr ⟨_, hmem2, rfl⟩)
        rw [show zodShapeProps (.cons key t rest) =
            (key, zodToJsonSchema t) :: zodShapeProps rest from rfl]
        rw [jGet_cons_neg _ _ _ _ hk]
        exact zodShapeProps_lookup rest k inner hnodup.2 hmem2

/-- Claim C9: for every object schema the published JSON schema sets
additionalProperties to false; its required array is exactly the keys of
the non-optional fields, and is omitted (undefined) when that list is
empty; and, in a duplicate-free shape, every optional field is published
under the schema of its unwrapped inner type. -/
theorem claim_c9_schema_generation (shape : ZodShape)
    (hnodup : (shape.toList.map Prod.fst).Nodup) :
    jGet (zodToJsonSchema (.object shape)) "additionalProperties" =
      some (.bool false) ∧
    zodShapeRequired shape =
      (shape.toList.filter (fun kv => ! kv.2.isOptional)).map Prod.fst ∧
    (zodShapeRequired shape = [] →
      jGet (zodToJsonSchema (.object shape)) "required" = none) ∧
    (zodShapeRequired shape ≠ [] →
      jGet (zodToJsonSchema (.object shape)) "required" =
        some (.arr ((zodShapeRequired shape).map .str))) ∧
    jGet (zodToJsonSchema (.object shape)) "properties" =
      some (Json.obj (zodShapeProps shape)) ∧
    (∀ k inner, (k, ZodType.optional inner) ∈ shape.toList →
      jGet (Json.obj (zodShapeProps shape)) k = some (zodToJsonSchema inner)) := by
  refine ⟨?_, zodShapeRequired_eq shape, ?_, ?_, ?_, ?_⟩
  · unfold zodToJsonSchema
    by_cases h : (zodShapeRequired shape).isEmpty
    · rw [if_pos h]
      rfl
    · rw [if_neg h]
      rfl
  · intro hreq
    unfold zodToJsonSchema
    rw [if_pos (by simp [hreq])]
    rfl
  · intro hreq
    unfold zodToJsonSchema
    rw [if_neg (by simp [hreq])]
    rfl
  · unfold zodToJsonSchema
    by_cases h : (zodShapeRequired shape).isEmpty
    · rw [if_pos h]
      rfl
    · rw [if_neg h]
      rfl
  · intro k inner hmem
    exact zodShapeProps_lookup shape k inner hnodup hmem

/-- Claim C9 witness: the hypotheses are satisfiable at the
get_document_count schema (one required field, one optional field). -/
theorem claim_c9_schema_generation_witness :
    jGet (zodToJsonSchema (.object (zshape
      [("doctype", .string), ("filters", .optional .recordAny)])))
      "additionalProperties" = some (.bool false) ∧
    zodShapeRequired (zshape [("doctype", .string), ("filters", .optional .recordAny)]) =
      (((zshape [("doctype", .string),
        ("filters", .optional .recordAny)]).toList.filter
          (fun kv => ! kv.2.isOptional)).map Prod.fst) ∧
    (zodShapeRequired (zshape [("doctype", .string), ("filters", .optional .recordAny)]) = [] →
      jGet (zodToJsonSchema (.object (zshape
        [("doctype", .string), ("filters", .optional .recordAny)]))) "required" = none) ∧
    (zodShapeRequired (zshape [("doctype", .string), ("filters", .optional .recordAny)]) ≠ [] →
      jGet (zodToJsonSchema (.object (zshape
        [("doctype", .string), ("filters", .optional .recordAny)]))) "required" =
        some (.arr ((zodShapeRequired (zshape
          [("doctype", .string), ("filters", .optional .recordAny)])).map .str))) ∧
    jGet (zodToJsonSchema (.object (zshape
      [("doctype", .string), ("filters", .optional .recordAny)]))) "properties" =
      some (Json.obj (zodShapeProps (zshape
        [("doctype", .string), ("filters", .optional .recordAny)]))) ∧
    (∀ k inner, (k, ZodType.optional inner) ∈
        (zshape [("doctype", .string), ("filters", .optional .recordAny)]).toList →
      jGet (Json.obj (zodShapeProps (zshape
        [("doctype", .string), ("filters", .optional .recordAny)]))) k =
        some (zodToJsonSchema inner)) :=
  claim_c9_schema_generation
    (zshape [("doctype", .string), ("filters", .optional .recordAny)])
    (by simp [zshape, ZodShape.toList])

/-- Under a notifications/initialized method the switch reduces to its arm. -/
theorem dispatch_notifInit (env : Env) (req : HttpRequest) (session : Option String)
    (streaming : Bool) (hm : req.method = some "notifications/initialized") :
    dispatchMethod env req session streaming =
      (if streaming then [.endStream] else [.noContent]) := by
  unfold dispatchMethod
  dsimp only
  rw [hm]
  rw [if_neg (by decide), if_neg (by decide), if_neg (by decide),
      if_neg (by decide), if_neg (by decide), if_neg (by decide),
      if_neg (by decide), if_pos rfl]

/-- Under a notifications/message method the switch reduces to its arm. -/
theorem dispatch_notifMessage (env : Env) (req : HttpRequest) (session : Option String)
    (streaming : Bool) (hm : req.method = some "notifications/message") :
    dispatchMethod env req session streaming =
      (if jsTruthyOpt req.id then
        [.jsonBody 400
          { id := req.id, result := none
            error := some
              { code := -32600
                message := "Notifications should not include an id", data := none } }]
       else [.noContent]) := by
  unfold dispatchMethod
  dsimp only
  rw [hm]
  rw [if_neg (by decide), if_neg (by decide), if_neg (by decide),
      if_neg (by decide), if_neg (by decide), if_neg (by decide),
      if_neg (by decide), if_neg (by decide), if_pos rfl]

/-- Claim C10 counterexample: the claim fails as stated.  A
notifications/message request carrying the id 0 — a present id that is
falsy in JavaScript — is answered 204 No Content, not with the −32600
protocol error the claim requires for every present id. -/
theorem claim_c10_counterexample :
    (HttpRequest.mk (some (.str "2.0")) (some (.num 0))
        (some "notifications/message") none none none none).id = some (.num 0) ∧
    handlePost witEnv
      (HttpRequest.mk (some (.str "2.0")) (some (.num 0))
        (some "notifications/message") none none none none) "s" =
      [Effect.noContent] ∧
    errorCodes (handlePost witEnv
      (HttpRequest.mk (some (.str "2.0")) (some (.num 0))
        (some "notifications/message") none none none none) "s") = [] :=
  ⟨rfl, rfl, rfl⟩

/-- Claim C10 (amended): in buffered mode notifications/initialized is
always answered 204 No Content with no result and no error body, whatever
id the request carries — unlike notifications/message, where a truthy id
(the guard is JavaScript truthiness, so 0, the empty string, null and
false count as absent) yields the −32600 protocol error. -/
theorem claim_c10_notifications (env : Env) (req : HttpRequest) (freshId : String)
    (hrpc : isJsonRpc2 req.jsonrpc = true) :
    (req.method = some "notifications/initialized" →
      handlePost env req freshId = [.noContent]) ∧
    (req.method = some "notifications/message" → jsTruthyOpt req.id = true →
      handlePost env req freshId =
        [.jsonBody 400
          { id := req.id, result := none
            error := some
              { code := -32600
                message := "Notifications should not include an id"
                data := none } }]) := by
  constructor
  · intro hm
    have hss : shouldStream req.method req.userAgent = false := by
      rw [hm]
      exact shouldStream_eq_false_of _ _ rfl rfl
    rw [handlePost_nostream env req freshId hrpc hss,
        dispatch_notifInit env req _ false hm]
    rfl
  · intro hm hid
    have hss : shouldStream req.method req.userAgent = false := by
      rw [hm]
      exact shouldStream_eq_false_of _ _ rfl rfl
    rw [handlePost_nostream env req freshId hrpc hss,
        dispatch_notifMessage env req _ false hm]
    rw [if_pos hid]

/-- Claim C10 witness: the amended hypotheses are satisfiable — a
notifications/initialized request carrying id 9 yields 204, and a
notifications/message request carrying the truthy id 3 yields −32600. -/
theorem claim_c10_notifications_witness :
    handlePost witEnv
      (HttpRequest.mk (some (.str "2.0")) (some (.num 9))
        (some "notifications/initialized") none none none none) "s" =
      [Effect.noContent] ∧
    handlePost witEnv
      (HttpRequest.mk (some (.str "2.0")) (some (.num 3))
        (some "notifications/message") none none none none) "s" =
      [.jsonBody 400
        { id := some (.num 3), result := none
          error := some
            { code := -32600
              message := "Notifications should not include an id"
              data := none } }] :=
  ⟨(claim_c10_notifications witEnv
      (HttpRequest.mk (some (.str "2.0")) (some (.num 9))
        (some "notifications/initialized") none none none none) "s" rfl).1 rfl,
   (claim_c10_notifications witEnv
      (HttpRequest.mk (some (.str "2.0")) (some (.num 3))
        (some "notifications/message") none none none none) "s" rfl).2 rfl rfl⟩
